import Mathlib

/-!
Verification of the mock-services repository (jira-mock, slack-mock,
testrail-mock): a shallow embedding of the route handlers and storage
layer, with theorems about authentication, CRUD semantics, partial
updates, pagination and seeding.
-/

namespace MockServices

/-- JSON values as delivered by the web framework to the handlers.
Numbers are modelled as integers (no claim exercises fractions). -/
inductive Json where
| null : Json
| bool (b : Bool) : Json
| num (n : Int) : Json
| str (s : String) : Json
| arr (xs : List Json) : Json
| obj (kvs : List (String × Json)) : Json
deriving Repr

/-- Python truthiness of a JSON value (`if not fields`, `if row[6]`, ...). -/
def Json.truthy : Json → Bool
| .null => false
| .bool b => b
| .num n => n != 0
| .str s => s != ""
| .arr xs => !xs.isEmpty
| .obj kvs => !kvs.isEmpty

/-- `d.get(k)` on a JSON object: first binding of the key, `none` when the
value is not an object or the key is absent. -/
def Json.get? : Json → String → Option Json
| .obj kvs, k => (kvs.find? (fun kv => kv.1 == k)).map (fun kv => kv.2)
| _, _ => none

/-- `k in d` for a JSON object payload (the handlers feed dict payloads to
the `in` operator; a non-object value yields no keys here). -/
def Json.hasKey (j : Json) (k : String) : Bool :=
(j.get? k).isSome

/-- Escape one character the way `json.dumps` does for the characters the
repository's data contains (quote and backslash; control characters and
non-ASCII transliteration are not exercised by any claim). -/
def jsonEscapeChar (c : Char) : String :=
if c = '"' then "\\\"" else if c = '\\' then "\\\\" else String.singleton c

/-- Escape a string body for `json.dumps`. -/
def jsonEscape (s : String) : String :=
String.join (s.toList.map jsonEscapeChar)

/-- `json.dumps` with the default separators, as used by `update_issue`
to store the `labels` and `components` payload values as TEXT. -/
def jsonDump : Json → String
| .null => "null"
| .bool b => if b then "true" else "false"
| .num n => toString n
| .str s => "\"" ++ jsonEscape s ++ "\""
| .arr xs => "[" ++ String.intercalate ", " (xs.attach.map (fun x => jsonDump x.1)) ++ "]"
| .obj kvs =>
  "\x7b" ++ String.intercalate ", "
    (kvs.attach.map (fun kv => "\"" ++ jsonEscape kv.1.1 ++ "\": " ++ jsonDump kv.1.2)) ++ "\x7d"
decreasing_by
· have h := List.sizeOf_lt_of_mem x.2
  simp only [Json.arr.sizeOf_spec]
  omega
· rcases kv with ⟨⟨k, v⟩, hk⟩
  have h := List.sizeOf_lt_of_mem hk
  simp only [Json.obj.sizeOf_spec, Prod.mk.sizeOf_spec] at *
  omega

/-- `s.startswith(pre)` on Python strings: prefix test on the character
sequence. -/
def strStartsWith (s pre : String) : Bool :=
pre.data.isPrefixOf s.data

/-- `s.lower()` on Python strings: character-wise lowercasing. -/
def strToLower (s : String) : String :=
⟨s.data.map Char.toLower⟩

/-- SQL `LIMIT n` on an ordered result set: a negative limit imposes no
bound (SQLite semantics, reached through SQLAlchemy `.limit(n)`). -/
def sqlLimit (limit : Int) (xs : List α) : List α :=
if limit < 0 then xs else xs.take limit.toNat

/-- Outcome of a route handler: an HTTP status with a body, or an
`HTTPException` / validation error carrying only a status. -/
inductive Resp (α : Type) where
| ok (status : Nat) (body : α) : Resp α
| err (status : Nat) : Resp α
deriving Repr, DecidableEq

/-- The HTTP status of a handler outcome. -/
def Resp.status : Resp α → Nat
| .ok s _ => s
| .err s => s

namespace Jira

/-- One row of the `issues` table (jira-mock/app.py).  Columns written from
request payloads carry JSON values (SQLite TEXT columns are dynamically
typed); `key` is NULLable (seed rows may lack one), `created_on` is the
`datetime('now')` text set at insertion, `updated_on` is set only by
`update_issue`. -/
structure IssueRow where
  id : Nat
  key : Option String
  summary : Json
  description : Json
  issue_type : Json
  created_on : String
  priority : Json := .null
  assignee : Json := .null
  reporter : Json := .null
  labels : Json := .null
  components : Json := .null
  updated_on : Option String := none
deriving Repr

/-- The `issues` table plus the AUTOINCREMENT counter for `id`. -/
structure Store where
  rows : List IssueRow
  nextId : Nat
deriving Repr

/-- The effective `require_bearer` of jira-mock/app.py (the definition at
line 277, which shadows the earlier one at line 201): the check passes
iff a header is present and its lowercase form starts with the scheme
prefix.  `true` means the request proceeds, `false` means HTTP 401. -/
def require_bearer (authorization : Option String) : Bool :=
match authorization with
| none => false
| some a => strStartsWith (strToLower a) "bearer "

/-- The earlier, shadowed `require_bearer` (jira-mock/app.py line 201):
it additionally rejected a Bearer token that is empty after stripping.
It is dead code — the later definition above replaces it — and is kept
here only to document the divergence. -/
def require_bearer_shadowed (authorization : Option String) : Bool :=
match authorization with
| none => false
| some a => strStartsWith a "Bearer " && ((a.drop 7).trim != "")

/-- `SELECT ... FROM issues WHERE key=?`: first row whose key matches. -/
def findByKey (st : Store) (issue_key : String) : Option IssueRow :=
st.rows.find? (fun r => r.key == some issue_key)

/-- The part of the issue JSON representation built by `get_issue` (and
reused by `update_issue` and `create_issue`) that the verified claims
mention; constant members (project, status, comments, attachment,
resolution) and the `json.loads` round-trip of labels/components carry
no information about the stored row beyond what is here. -/
structure IssueOut where
  id : Nat
  key : Option String
  summary : Json
  description : Json
  issuetypeName : Json
  priorityName : Json
  assignee : Option Json
  created : String
  updated : String
deriving Repr

/-- Body construction of `get_issue` from a fetched row: `priority` falls
back to "Medium" when the column is falsy, `assignee` becomes null when
falsy, `updated` falls back to `created` when `updated_on` is falsy. -/
def issueOutOfRow (row : IssueRow) : IssueOut :=
{ id := row.id
  key := row.key
  summary := row.summary
  description := row.description
  issuetypeName := row.issue_type
  priorityName := if row.priority.truthy then row.priority else .str "Medium"
  assignee := if row.assignee.truthy then some row.assignee else none
  created := row.created_on
  updated := match row.updated_on with
    | some u => if u != "" then u else row.created_on
    | none => row.created_on }

/-- `GET /rest/api/3/issue/{issue_key}` (jira-mock/app.py `get_issue`). -/
def get_issue (st : Store) (issue_key : String) (authorization : Option String) :
    Resp IssueOut :=
if !require_bearer authorization then .err 401
else match findByKey st issue_key with
  | none => .err 404
  | some row => .ok 200 (issueOutOfRow row)

/-- The pydantic `IssueType` input model. -/
structure IssueTypeIn where
  name : String
deriving Repr

/-- The members of the pydantic `IssueFields` input model that
`create_issue` reads (`summary`, `description`, `issuetype`); the
remaining optional members are never consulted by the handler.
`description = none` models an explicit JSON null (the pydantic default
for an absent member is `""`). -/
structure IssueFieldsIn where
  summary : String
  description : Option String := some ""
  issuetype : IssueTypeIn
deriving Repr

/-- `POST /rest/api/3/issue` (jira-mock/app.py `create_issue`): inserts a
row with key `QA-<id>`, falling back to "No summary" for a falsy summary
and `""` for a null description, and answers 201 with the stored data.
`now` is the `datetime('now')` value of this request. -/
def create_issue (st : Store) (fields : IssueFieldsIn) (authorization : Option String)
    (now : String) : Resp IssueOut × Store :=
if !require_bearer authorization then (.err 401, st)
else
  let summary := if fields.summary == "" then "No summary" else fields.summary
  let description := fields.description.getD ""
  let issue_type := fields.issuetype.name
  let issueId := st.nextId
  let key := s!"QA-{issueId}"
  let row : IssueRow :=
    { id := issueId, key := some key, summary := .str summary,
      description := .str description, issue_type := .str issue_type,
      created_on := now }
  let st' : Store := { rows := st.rows ++ [row], nextId := issueId + 1 }
  (.ok 201
    { id := issueId, key := some key, summary := .str summary,
      description := .str description, issuetypeName := .str issue_type,
      priorityName := .str "Medium", assignee := none,
      created := now, updated := now }, st')

/-- `ORDER BY id DESC`. -/
def orderByIdDesc (rows : List IssueRow) : List IssueRow :=
rows.mergeSort (fun a b => decide (b.id ≤ a.id))

/-- The body of a `GET /rest/api/3/search` response. -/
structure SearchOut where
  startAt : Int
  maxResults : Int
  total : Nat
  issues : List (Nat × Option String × Json)
deriving Repr

/-- `GET /rest/api/3/search` (jira-mock/app.py `search_issues`): FastAPI
validates `startAt ≥ 0` and `1 ≤ maxResults ≤ 100` (422 otherwise)
before the handler runs; the handler then checks auth and pages with
`LIMIT maxResults OFFSET startAt` over `ORDER BY id DESC`, reporting
`total` as the length of the returned page. -/
def search_issues (st : Store) (startAt maxResults : Int)
    (authorization : Option String) : Resp SearchOut :=
if startAt < 0 || maxResults < 1 || maxResults > 100 then .err 422
else if !require_bearer authorization then .err 401
else
  let rows := sqlLimit maxResults ((orderByIdDesc st.rows).drop startAt.toNat)
  .ok 200
    { startAt := startAt, maxResults := maxResults, total := rows.length,
      issues := rows.map (fun r => (r.id, r.key, r.summary)) }

/-- `DELETE /rest/api/3/issue/{issue_key}` (jira-mock/app.py
`delete_issue`): 404 when no row matches, otherwise
`DELETE FROM issues WHERE key=?` and 204. -/
def delete_issue (st : Store) (issue_key : String) (authorization : Option String) :
    Resp Unit × Store :=
if !require_bearer authorization then (.err 401, st)
else if (findByKey st issue_key).isNone then (.err 404, st)
else (.ok 204 (), { st with rows := st.rows.filter (fun r => r.key != some issue_key) })

/-- The `"summary" in fields` block of `update_issue`: the raw payload
value goes into the `summary` column. -/
def updSummary (fields : Json) : List (String × Json) :=
match fields.get? "summary" with
| some v => [("summary", v)]
| none => []

/-- The `"description" in fields` block. -/
def updDescription (fields : Json) : List (String × Json) :=
match fields.get? "description" with
| some v => [("description", v)]
| none => []

/-- The `"issuetype" in fields` block: only an object value contributes
(its `name` member, or null when missing); any other issuetype value is
skipped. -/
def updIssuetype (fields : Json) : List (String × Json) :=
match fields.get? "issuetype" with
| some (.obj kvs) => [("issue_type", ((Json.obj kvs).get? "name").getD .null)]
| some _ => []
| none => []

/-- The `"priority" in fields` block: the `name` member of an object
value, the raw value otherwise. -/
def updPriority (fields : Json) : List (String × Json) :=
match fields.get? "priority" with
| some (.obj kvs) => [("priority", ((Json.obj kvs).get? "name").getD .null)]
| some v => [("priority", v)]
| none => []

/-- The `"assignee" in fields` block: the `name` member of an object
value, the raw value otherwise. -/
def updAssignee (fields : Json) : List (String × Json) :=
match fields.get? "assignee" with
| some (.obj kvs) => [("assignee", ((Json.obj kvs).get? "name").getD .null)]
| some v => [("assignee", v)]
| none => []

/-- The `"reporter" in fields` block: the `name` member of an object
value, the raw value otherwise. -/
def updReporter (fields : Json) : List (String × Json) :=
match fields.get? "reporter" with
| some (.obj kvs) => [("reporter", ((Json.obj kvs).get? "name").getD .null)]
| some v => [("reporter", v)]
| none => []

/-- The `"labels" in fields` block: stored as `json.dumps` text. -/
def updLabels (fields : Json) : List (String × Json) :=
match fields.get? "labels" with
| some v => [("labels", .str (jsonDump v))]
| none => []

/-- The `"components" in fields` block: stored as `json.dumps` text. -/
def updComponents (fields : Json) : List (String × Json) :=
match fields.get? "components" with
| some v => [("components", .str (jsonDump v))]
| none => []

/-- The `updates` dict computed by `update_issue` from the `fields`
payload, in source order. -/
def computeUpdates (fields : Json) : List (String × Json) :=
updSummary fields ++ updDescription fields ++ updIssuetype fields
++ updPriority fields ++ updAssignee fields ++ updReporter fields
++ updLabels fields ++ updComponents fields

/-- One `column=?` assignment of the generated `SET` clause. -/
def applySet (r : IssueRow) (kv : String × Json) : IssueRow :=
if kv.1 == "summary" then { r with summary := kv.2 }
else if kv.1 == "description" then { r with description := kv.2 }
else if kv.1 == "issue_type" then { r with issue_type := kv.2 }
else if kv.1 == "priority" then { r with priority := kv.2 }
else if kv.1 == "assignee" then { r with assignee := kv.2 }
else if kv.1 == "reporter" then { r with reporter := kv.2 }
else if kv.1 == "labels" then { r with labels := kv.2 }
else if kv.1 == "components" then { r with components := kv.2 }
else r

/-- The full `UPDATE issues SET <updates>, updated_on=datetime('now')`
applied to one row. -/
def applyUpdates (r : IssueRow) (updates : List (String × Json)) (now : String) :
    IssueRow :=
{ (updates.foldl applySet r) with updated_on := some now }

/-- The `fields` value extracted by `update_issue`
(`payload.get("fields") if isinstance(payload, dict) else None`). -/
def extractFields (payload : Json) : Json :=
match payload with
| .obj kvs => ((Json.obj kvs).get? "fields").getD .null
| _ => .null

/-- `PATCH /rest/api/3/issue/{issue_key}` (jira-mock/app.py
`update_issue`).  `payload = none` models a body that is not valid JSON
(400); a missing/falsy `fields` value is 400; an empty `updates` dict is
400; an unknown key is 404; otherwise the matching rows are updated and
the handler returns the result of `get_issue` on the new store. -/
def update_issue (st : Store) (issue_key : String) (payload : Option Json)
    (authorization : Option String) (now : String) : Resp IssueOut × Store :=
if !require_bearer authorization then (.err 401, st)
else match payload with
| none => (.err 400, st)
| some p =>
  let fields := extractFields p
  if !fields.truthy then (.err 400, st)
  else
    let updates := computeUpdates fields
    if updates.isEmpty then (.err 400, st)
    else match findByKey st issue_key with
      | none => (.err 404, st)
      | some _ =>
        let newRows := st.rows.map
          (fun r => if r.key == some issue_key then applyUpdates r updates now else r)
        let st' : Store := { st with rows := newRows }
        (get_issue st' issue_key authorization, st')

/-- One entry of `shared/seed/sample_issues.json`, read by `startup` with
`item.get("key")`, `fields.get("summary", "seed")`,
`fields.get("description", "")`,
`fields.get("issuetype", {}).get("name", "Task")`. -/
def seedRow (issueId : Nat) (now : String) (item : Json) : IssueRow :=
let fields := (item.get? "fields").getD (.obj [])
{ id := issueId
  key := match item.get? "key" with
    | some (.str s) => some s
    | _ => none
  summary := (fields.get? "summary").getD (.str "seed")
  description := (fields.get? "description").getD (.str "")
  issue_type := (((fields.get? "issuetype").getD (.obj [])).get? "name").getD (.str "Task")
  created_on := now }

/-- The body of the seed-insertion loop of `startup`: one
`INSERT INTO issues ...` for one seed item. -/
def seedStep (now : String) (acc : Store) (item : Json) : Store :=
{ rows := acc.rows ++ [seedRow acc.nextId now item], nextId := acc.nextId + 1 }

/-- The `startup` event handler (jira-mock/app.py): after ensuring the
table exists, it counts the rows and — only when the count is zero and
the seed file exists (`seedFile = some items`) — inserts one row per
seed item.  The subsequent `ALTER TABLE ... ADD COLUMN` statements do
not touch row contents. -/
def startup (st : Store) (seedFile : Option (List Json)) (now : String) : Store :=
if st.rows.length == 0 then
  match seedFile with
  | none => st
  | some items => items.foldl (seedStep now) st
else st

end Jira

namespace Slack

/-- A row of the `channels` table (slack-mock/models.py). -/
structure ChannelRow where
  id : String
  name : String
  topic : String := ""
  purpose : String := ""
deriving Repr, DecidableEq

/-- A row of the `messages` table (slack-mock/models.py); `ts` is the
Slack-style timestamp string assigned at creation. -/
structure MessageRow where
  ts : String
  channel_id : String
  user : String
  text : String
  thread_ts : Option String := none
deriving Repr, DecidableEq

/-- The slack-mock store (channels and messages; the `files` table holds
no reference into either and is not needed by any claim). -/
structure Store where
  channels : List ChannelRow
  messages : List MessageRow
deriving Repr, DecidableEq

/-- `require_auth` (slack-mock/routes.py): with auth enabled
(`MOCK_AUTH_REQUIRED` not set to a false value), the request passes iff
the Authorization header is present and starts with the Bearer scheme
prefix.  `true` means the request proceeds, `false` means HTTP 401. -/
def require_auth (authRequired : Bool) (authHeader : Option String) : Bool :=
if !authRequired then true
else match authHeader with
  | none => false
  | some h => (h != "") && strStartsWith h "Bearer "

/-- `get_channel_by_name` (slack-mock/storage.py). -/
def get_channel_by_name (st : Store) (channel_name : String) : Option ChannelRow :=
st.channels.find? (fun c => c.name == channel_name)

/-- `get_channel_by_id` (slack-mock/storage.py). -/
def get_channel_by_id (st : Store) (channel_id : String) : Option ChannelRow :=
st.channels.find? (fun c => c.id == channel_id)

/-- `create_message` (slack-mock/storage.py): append a row with a fresh
timestamp `ts`. -/
def create_message (st : Store) (channel_id user text : String)
    (thread_ts : Option String) (ts : String) : MessageRow × Store :=
let m : MessageRow :=
  { ts := ts, channel_id := channel_id, user := user, text := text, thread_ts := thread_ts }
(m, { st with messages := st.messages ++ [m] })

/-- The pydantic `PostMessageRequest` input model; `username` defaults to
"SlackBot". -/
structure PostMessageIn where
  channel : String
  text : String
  username : String := "SlackBot"
  thread_ts : Option String := none
deriving Repr, DecidableEq

/-- The parts of the `PostMessageResponse` body determined by the store. -/
structure PostMessageOut where
  ok : Bool
  channel : String
  ts : String
deriving Repr, DecidableEq

/-- `POST /api/chat.postMessage` (slack-mock/routes.py `post_message`):
auth check, channel lookup by name then by id, 404 when neither finds a
channel, otherwise the message is stored against the found channel's id. -/
def post_message (authRequired : Bool) (auth : Option String) (req : PostMessageIn)
    (st : Store) (ts : String) : Resp PostMessageOut × Store :=
if !require_auth authRequired auth then (.err 401, st)
else match (get_channel_by_name st req.channel).orElse
       (fun _ => get_channel_by_id st req.channel) with
  | none => (.err 404, st)
  | some ch =>
    let ms := create_message st ch.id req.username req.text req.thread_ts ts
    (.ok 200 { ok := true, channel := ch.id, ts := ms.1.ts }, ms.2)

/-- `get_messages` (slack-mock/storage.py): filter by channel, apply the
truthy `oldest`/`latest` bounds, `ORDER BY ts DESC`, `LIMIT limit`. -/
def get_messages (st : Store) (channel_id : String) (limit : Int)
    (oldest latest : Option String) : List MessageRow :=
let q : List MessageRow := st.messages.filter (fun m => m.channel_id == channel_id)
let q : List MessageRow := match oldest with
  | some o => if o != "" then q.filter (fun m => decide (o ≤ m.ts)) else q
  | none => q
let q : List MessageRow := match latest with
  | some l => if l != "" then q.filter (fun m => decide (m.ts ≤ l)) else q
  | none => q
sqlLimit limit (q.mergeSort (fun a b => decide (b.ts ≤ a.ts)))

/-- The parts of the `ConversationHistoryResponse` body determined by the
store. -/
structure HistoryOut where
  ok : Bool
  messages : List MessageRow
  has_more : Bool
deriving Repr, DecidableEq

/-- `GET /api/conversations.history` (slack-mock/routes.py
`get_conversation_history`): auth check, channel lookup (404 when
absent), then the paged messages reversed to oldest-first, with
`has_more` when the page is exactly `limit` long. -/
def conversations_history (authRequired : Bool) (auth : Option String)
    (channel : String) (limit : Int) (oldest latest : Option String)
    (st : Store) : Resp HistoryOut :=
if !require_auth authRequired auth then .err 401
else match (get_channel_by_name st channel).orElse
       (fun _ => get_channel_by_id st channel) with
  | none => .err 404
  | some ch =>
    let msgs := get_messages st ch.id limit oldest latest
    .ok 200
      { ok := true, messages := msgs.reverse,
        has_more := decide ((msgs.length : Int) = limit) }

/-- One pass of the `upload_file` comment loop: post the comment message
to the named channel when it exists, skip it otherwise. -/
def upload_step (comment filename : String) (ts : Nat → String)
    (acc : Store × Nat) (n : String) : Store × Nat :=
match get_channel_by_name acc.1 n with
| some ch =>
  ((create_message acc.1 ch.id "FileUploader"
    (comment ++ "\n📎 Uploaded: " ++ filename) none (ts acc.2)).2, acc.2 + 1)
| none => acc

/-- The message-creating effect of `POST /api/files.upload`
(slack-mock/routes.py `upload_file`): when a truthy `initial_comment` is
given, the comma-separated channel names are stripped and a comment
message is posted to each one that exists; the stored file row itself
references no channel or message.  `ts` supplies the timestamp for the
k-th created message. -/
def upload_file_comments (st : Store) (channels : String)
    (initial_comment : Option String) (filename : String) (ts : Nat → String) : Store :=
match initial_comment with
| none => st
| some comment =>
  if comment == "" then st
  else
    let channel_names := (channels.splitOn ",").map (fun c => c.trim)
    (channel_names.foldl (upload_step comment filename ts) (st, 0)).1

/-- The two channels inserted by `seed_data` (slack-mock/storage.py). -/
def seedChannels : List ChannelRow :=
[{ id := "C1234567890", name := "qa-reports",
   topic := "Quality Assurance Reports and Updates",
   purpose := "Channel for sharing QA test results and automation reports" },
 { id := "C0987654321", name := "general",
   topic := "General Discussion",
   purpose := "Company-wide announcements and general discussion" }]

/-- The five messages inserted by `seed_data`, with timestamps derived
from the current epoch second `base_ts`. -/
def seedMessages (base_ts : Nat) : List MessageRow :=
let t1 := base_ts - 3600
let t2 := base_ts - 3000
let t3 := base_ts - 1800
let t4 := base_ts - 900
let t5 := base_ts - 300
[{ ts := s!"{t1}.000100", channel_id := "C1234567890", user := "U1111111111",
   text := "🚀 Test automation run completed successfully! All 47 tests passed." },
 { ts := s!"{t2}.000200", channel_id := "C1234567890", user := "U2222222222",
   text := "Found a critical bug in the login flow. Creating JIRA ticket now." },
 { ts := s!"{t3}.000300", channel_id := "C1234567890", user := "U1111111111",
   text := "Bug has been logged as QA-123. TestRail case updated with failure details." },
 { ts := s!"{t4}.000400", channel_id := "C0987654321", user := "U3333333333",
   text := "Good morning team! Don't forget about the sprint retrospective at 2 PM." },
 { ts := s!"{t5}.000500", channel_id := "C0987654321", user := "U2222222222",
   text := "Thanks for the reminder! I'll be there." }]

/-- `init_db` (slack-mock/storage.py): create tables, then run
`seed_data` only when the channels table has zero rows. -/
def init_db (st : Store) (base_ts : Nat) : Store :=
if st.channels.length == 0 then
  { channels := st.channels ++ seedChannels,
    messages := st.messages ++ seedMessages base_ts }
else st

end Slack

namespace TestRail

/-- A row of the `projects` table (testrail-mock/models.py). -/
structure ProjectRow where
  id : Nat
  name : String
  description : Option String := none
deriving Repr, DecidableEq

/-- A row of the `sections` table. -/
structure SectionRow where
  id : Nat
  project_id : Nat
  name : String
  description : Option String := none
  parent_id : Option Nat := none
deriving Repr, DecidableEq

/-- A row of the `templates` table. -/
structure TemplateRow where
  id : Nat
  name : String
  is_default : Bool := false
deriving Repr, DecidableEq

/-- One element of a `steps` JSON column (the pydantic `TestStep`). -/
structure TestStep where
  step : String
  expected : String
deriving Repr, DecidableEq

/-- A row of the `cases` table; `created_on`/`updated_on` are the
`datetime.utcnow` values modelled as ticks. -/
structure TestCaseRow where
  id : Nat
  section_id : Nat
  title : String
  template_id : Nat
  type_id : Int := 1
  priority_id : Int := 2
  steps : Option (List TestStep) := none
  expected_result : Option String := none
  preconditions : Option String := none
  created_on : Nat
  updated_on : Nat
deriving Repr, DecidableEq

/-- A row of the `results` table. -/
structure TestResultRow where
  id : Nat
  case_id : Nat
  status_id : Int
  comment : Option String := none
  elapsed : Option String := none
  created_on : Nat
  created_by : String := "mock-user"
deriving Repr, DecidableEq

/-- A row of the `runs` table. -/
structure TestRunRow where
  id : Nat
  project_id : Nat
  name : String
  description : Option String := none
  is_completed : Bool := false
deriving Repr, DecidableEq

/-- A row of the `run_entries` table. -/
structure RunEntryRow where
  id : Nat
  run_id : Nat
  case_id : Nat
  status_id : Int := 3
  comment : Option String := none
  elapsed : Option String := none
deriving Repr, DecidableEq

/-- The testrail-mock store with the per-table rowid counters used by the
endpoints that insert rows. -/
structure Store where
  projects : List ProjectRow
  sections : List SectionRow
  templates : List TemplateRow
  cases : List TestCaseRow
  results : List TestResultRow
  runs : List TestRunRow
  run_entries : List RunEntryRow
  nextCaseId : Nat := 1
  nextResultId : Nat := 1
  nextRunId : Nat := 1
  nextRunEntryId : Nat := 1
deriving Repr, DecidableEq

/-- An incoming HTTP request as far as auth dispatch is concerned. -/
structure HttpRequest where
  path : String
  authorization : Option String
deriving Repr, DecidableEq

/-- `check_auth` (testrail-mock/app.py lines 51-57): 401 for an `/api/` or
`/index.php` request without a Bearer Authorization header.  The
function is defined but never installed as a middleware or dependency of
any route, so no request ever runs through it. -/
def check_auth (request : HttpRequest) : Except Nat Bool :=
if strStartsWith request.path "/api/" || strStartsWith request.path "/index.php" then
  match request.authorization with
  | none => .error 401
  | some h => if h != "" && strStartsWith h "Bearer " then .ok true else .error 401
else .ok true

/-- `GET /api/v2/projects` (testrail-mock/routes.py `get_projects`): the
handler's only dependency is the database session. -/
def get_projects (st : Store) : Resp (List ProjectRow) :=
.ok 200 st.projects

/-- The app's dispatch of `GET /api/v2/projects`: routes.py declares no
auth dependency and app.py never registers `check_auth`, so the
request's Authorization header plays no part. -/
def handle_get_projects (_request : HttpRequest) (st : Store) : Resp (List ProjectRow) :=
get_projects st

/-- `GET /api/v2/cases/{project_id}` (testrail-mock/routes.py
`get_cases`): FastAPI validates `limit ≤ 250` and `offset ≥ 0` (422
otherwise; no lower bound on `limit`), the cases are joined to sections
of the project, optionally filtered by a truthy `section_id`, then
`OFFSET offset LIMIT limit`. -/
def get_cases (st : Store) (project_id : Nat) (section_id : Option Int)
    (limit offset : Int) : Resp (List TestCaseRow) :=
if limit > 250 then .err 422
else if offset < 0 then .err 422
else
  let joined := st.cases.filter
    (fun c => st.sections.any (fun s => s.id == c.section_id && s.project_id == project_id))
  let q : List TestCaseRow := match section_id with
    | some sid => if sid != 0 then joined.filter (fun c => (c.section_id : Int) == sid) else joined
    | none => joined
  .ok 200 (sqlLimit limit (q.drop offset.toNat))

/-- `GET /api/v2/case/{case_id}` (testrail-mock/routes.py `get_case`). -/
def get_case (st : Store) (case_id : Nat) : Resp TestCaseRow :=
match st.cases.find? (fun c => c.id == case_id) with
| none => .err 404
| some c => .ok 200 c

/-- The pydantic `TestCaseCreate` payload.  `none` in an outer `Option`
means the member was absent from the JSON body (pydantic exclude_unset);
`title` is required, so a body lacking it is rejected with 422 before
the handler runs. -/
structure TestCaseCreateIn where
  title : String
  template_id : Option Nat := none
  type_id : Option Int := none
  priority_id : Option Int := none
  steps : Option (Option (List TestStep)) := none
  expected_result : Option (Option String) := none
  preconditions : Option (Option String) := none
deriving Repr, DecidableEq

/-- `POST /api/v2/cases/{section_id}` (testrail-mock/routes.py
`create_case`): 404 unless the section exists, then insert a row built
from `case.dict()` — absent members take the pydantic defaults
(template_id 1, type_id 1, priority_id 2, null steps/expected/
preconditions). -/
def create_case (st : Store) (section_id : Nat) (case : TestCaseCreateIn)
    (now : Nat) : Resp TestCaseRow × Store :=
match st.sections.find? (fun s => s.id == section_id) with
| none => (.err 404, st)
| some _ =>
  let row : TestCaseRow :=
    { id := st.nextCaseId, section_id := section_id, title := case.title,
      template_id := case.template_id.getD 1,
      type_id := case.type_id.getD 1,
      priority_id := case.priority_id.getD 2,
      steps := case.steps.getD none,
      expected_result := case.expected_result.getD none,
      preconditions := case.preconditions.getD none,
      created_on := now, updated_on := now }
  (.ok 200 row, { st with cases := st.cases ++ [row], nextCaseId := st.nextCaseId + 1 })

/-- The `setattr` loop of `update_case` over `case.dict(exclude_unset=True)`,
plus the `updated_on` onupdate trigger fired by the flush. -/
def applyCaseUpdate (row : TestCaseRow) (case : TestCaseCreateIn) (now : Nat) :
    TestCaseRow :=
{ row with
  title := case.title,
  template_id := case.template_id.getD row.template_id,
  type_id := case.type_id.getD row.type_id,
  priority_id := case.priority_id.getD row.priority_id,
  steps := case.steps.getD row.steps,
  expected_result := case.expected_result.getD row.expected_result,
  preconditions := case.preconditions.getD row.preconditions,
  updated_on := now }

/-- `PUT /api/v2/case/{case_id}` (testrail-mock/routes.py `update_case`):
404 unless the case exists, then only the payload members that were set
are written onto the row. -/
def update_case (st : Store) (case_id : Nat) (case : TestCaseCreateIn)
    (now : Nat) : Resp TestCaseRow × Store :=
match st.cases.find? (fun c => c.id == case_id) with
| none => (.err 404, st)
| some row =>
  let row' := applyCaseUpdate row case now
  let newCases := st.cases.map (fun c => if c.id == case_id then applyCaseUpdate c case now else c)
  (.ok 200 row', { st with cases := newCases })

/-- The `STATUS_NAMES` constant (testrail-mock/models.py). -/
def STATUS_NAMES : List (Int × String) :=
[(1, "Passed"), (2, "Blocked"), (3, "Untested"), (4, "Retest"), (5, "Failed")]

/-- The pydantic `TestResultCreate` payload. -/
structure TestResultCreateIn where
  status_id : Int
  comment : Option String := none
  elapsed : Option String := none
deriving Repr, DecidableEq

/-- `POST /api/v2/results/{case_id}` (testrail-mock/routes.py
`create_result`): 404 unless the case exists, 400 for a status_id
outside `STATUS_NAMES`, otherwise the result row is stored against the
given case. -/
def create_result (st : Store) (case_id : Nat) (result : TestResultCreateIn)
    (now : Nat) : Resp TestResultRow × Store :=
match st.cases.find? (fun c => c.id == case_id) with
| none => (.err 404, st)
| some _ =>
  if !(STATUS_NAMES.any (fun p => p.1 == result.status_id)) then (.err 400, st)
  else
    let row : TestResultRow :=
      { id := st.nextResultId, case_id := case_id, status_id := result.status_id,
        comment := result.comment, elapsed := result.elapsed, created_on := now }
    (.ok 200 row,
     { st with results := st.results ++ [row], nextResultId := st.nextResultId + 1 })

/-- `POST /ui/case/{case_id}/execute` (testrail-mock/app.py
`execute_case`): 404 unless the case exists, then a result row is added
and the browser is redirected (303). -/
def execute_case (st : Store) (case_id : Nat) (status_id : Int)
    (comment elapsed : Option String) (now : Nat) : Resp Unit × Store :=
match st.cases.find? (fun c => c.id == case_id) with
| none => (.err 404, st)
| some _ =>
  let row : TestResultRow :=
    { id := st.nextResultId, case_id := case_id, status_id := status_id,
      comment := comment, elapsed := elapsed, created_on := now }
  (.ok 303 (),
   { st with results := st.results ++ [row], nextResultId := st.nextResultId + 1 })

/-- The three default templates inserted by `seed_initial_data`
(testrail-mock/storage.py). -/
def seedTemplates : List TemplateRow :=
[{ id := 1, name := "Test Case (Text)", is_default := true },
 { id := 2, name := "Test Case (Steps)", is_default := false },
 { id := 3, name := "Exploratory Session", is_default := false }]

/-- The default project inserted by `seed_initial_data`. -/
def seedProject : ProjectRow :=
{ id := 1, name := "Demo Project",
  description := some "Sample project for TestRail mock service" }

/-- The five sections inserted by `seed_initial_data`. -/
def seedSections : List SectionRow :=
[{ id := 1, project_id := 1, name := "Authentication",
   description := some "Login and authentication tests" },
 { id := 2, project_id := 1, name := "User Management",
   description := some "User creation, editing, and deletion" },
 { id := 3, project_id := 1, name := "API Tests",
   description := some "REST API endpoint testing" },
 { id := 4, project_id := 1, name := "UI Tests",
   description := some "User interface testing" },
 { id := 5, project_id := 1, name := "Integration",
   description := some "Integration and end-to-end tests" }]

/-- One entry of `shared/seed/sample_testcases.json` as read by
`load_seed_data_from_json` via `.get` with the source's defaults. -/
structure SeedCaseItem where
  section_id : Nat := 1
  title : String
  template_id : Nat := 1
  type_id : Int := 1
  priority_id : Int := 2
  steps : Option (List TestStep) := none
  expected_result : Option String := none
  preconditions : Option String := none
deriving Repr, DecidableEq

/-- Insert one test case row built from a seed entry. -/
def insertSeedCase (st : Store) (item : SeedCaseItem) (now : Nat) : Store :=
let row : TestCaseRow :=
  { id := st.nextCaseId, section_id := item.section_id, title := item.title,
    template_id := item.template_id, type_id := item.type_id,
    priority_id := item.priority_id, steps := item.steps,
    expected_result := item.expected_result, preconditions := item.preconditions,
    created_on := now, updated_on := now }
{ st with cases := st.cases ++ [row], nextCaseId := st.nextCaseId + 1 }

/-- The seven sample test cases of `create_sample_test_cases`
(testrail-mock/storage.py). -/
def sampleCases : List SeedCaseItem :=
[{ section_id := 1, title := "Login with valid credentials", template_id := 2,
   type_id := 1, priority_id := 1,
   steps := some
     [{ step := "Navigate to login page", expected := "Login form is displayed" },
      { step := "Enter valid username and password", expected := "Credentials are accepted" },
      { step := "Click login button", expected := "User is redirected to dashboard" }],
   expected_result := some "User successfully logs in and sees dashboard",
   preconditions := some "User account exists and is active" },
 { section_id := 1, title := "Login with invalid credentials", template_id := 2,
   type_id := 1, priority_id := 2,
   steps := some
     [{ step := "Navigate to login page", expected := "Login form is displayed" },
      { step := "Enter invalid username or password", expected := "Invalid credentials entered" },
      { step := "Click login button", expected := "Error message is shown" }],
   expected_result := some "Login fails with appropriate error message",
   preconditions := some "Login page is accessible" },
 { section_id := 2, title := "Create new user account", template_id := 2,
   type_id := 1, priority_id := 2,
   steps := some
     [{ step := "Navigate to user management page", expected := "User list is displayed" },
      { step := "Click 'Add User' button", expected := "User creation form opens" },
      { step := "Fill in required user details", expected := "Form accepts valid data" },
      { step := "Submit the form", expected := "User is created successfully" }],
   expected_result := some "New user account is created and appears in user list",
   preconditions := some "Admin user is logged in" },
 { section_id := 3, title := "GET /api/users endpoint returns user list", template_id := 1,
   type_id := 1, priority_id := 2,
   expected_result := some "API returns 200 status with JSON array of users",
   preconditions := some "API service is running and users exist in database" },
 { section_id := 3, title := "POST /api/users creates new user", template_id := 2,
   type_id := 1, priority_id := 2,
   steps := some
     [{ step := "Send POST request to /api/users with valid user data", expected := "Request is processed" },
      { step := "Check response status code", expected := "Returns 201 Created" },
      { step := "Verify response body contains user data", expected := "User object returned with ID" }],
   expected_result := some "New user is created via API and returns user object",
   preconditions := some "API authentication token is valid" },
 { section_id := 4, title := "Navigation menu displays all sections", template_id := 1,
   type_id := 1, priority_id := 3,
   expected_result := some "All navigation menu items are visible and clickable",
   preconditions := some "User is logged in to the application" },
 { section_id := 5, title := "End-to-end user registration and login flow", template_id := 2,
   type_id := 2, priority_id := 2,
   steps := some
     [{ step := "Register new user account", expected := "Registration successful" },
      { step := "Verify email confirmation", expected := "Email received and confirmed" },
      { step := "Login with new credentials", expected := "Login successful" },
      { step := "Access protected resources", expected := "User can access all features" }],
   expected_result := some "Complete user onboarding flow works end-to-end",
   preconditions := some "Email service is configured and working" }]

/-- Insert one sample result row. -/
def insertSampleResult (st : Store) (case_id : Nat) (status_id : Int)
    (comment elapsed : String) (now : Nat) : Store :=
let row : TestResultRow :=
  { id := st.nextResultId, case_id := case_id, status_id := status_id,
    comment := some comment, elapsed := some elapsed, created_on := now }
{ st with results := st.results ++ [row], nextResultId := st.nextResultId + 1 }

/-- Insert one sample run entry row. -/
def insertSampleEntry (st : Store) (run_id case_id : Nat) (status_id : Int)
    (comment : String) : Store :=
let row : RunEntryRow :=
  { id := st.nextRunEntryId, run_id := run_id, case_id := case_id,
    status_id := status_id, comment := some comment }
{ st with run_entries := st.run_entries ++ [row], nextRunEntryId := st.nextRunEntryId + 1 }

/-- `create_sample_test_cases` (testrail-mock/storage.py): the seven
sample cases, five sample results, the Sprint 1 run and its five
entries with the hard-coded case ids. -/
def create_sample_test_cases (st : Store) (now : Nat) : Store :=
let st := sampleCases.foldl (fun acc item => insertSeedCase acc item now) st
let st := insertSampleResult st 1 1 "Test passed successfully" "2m 15s" now
let st := insertSampleResult st 2 1 "Error message displayed correctly" "1m 30s" now
let st := insertSampleResult st 3 5 "Form validation failed" "3m 45s" now
let st := insertSampleResult st 4 1 "API response correct" "45s" now
let st := insertSampleResult st 5 4 "Need to retest with updated data" "2m 00s" now
let run : TestRunRow :=
  { id := st.nextRunId, project_id := 1, name := "Sprint 1 Regression Tests",
    description := some "Regression testing for Sprint 1 features" }
let st := { st with runs := st.runs ++ [run], nextRunId := st.nextRunId + 1 }
let st := insertSampleEntry st 1 1 1 "Passed"
let st := insertSampleEntry st 1 2 1 "Passed"
let st := insertSampleEntry st 1 3 5 "Failed - needs investigation"
let st := insertSampleEntry st 1 4 3 "Not yet tested"
let st := insertSampleEntry st 1 5 3 "Not yet tested"
st

/-- `load_seed_data_from_json` (testrail-mock/storage.py): when the JSON
seed file is missing (`none`) the sample data is created directly,
otherwise one case row per file entry is inserted. -/
def load_seed_data_from_json (st : Store) (seedFile : Option (List SeedCaseItem))
    (now : Nat) : Store :=
match seedFile with
| none => create_sample_test_cases st now
| some items => items.foldl (fun acc item => insertSeedCase acc item now) st

/-- `seed_initial_data` (testrail-mock/storage.py): when
`db.query(Project).first()` finds a row nothing happens; otherwise the
default templates, project and sections are inserted and the JSON (or
sample) seed cases are loaded. -/
def seed_initial_data (st : Store) (seedFile : Option (List SeedCaseItem))
    (now : Nat) : Store :=
if !st.projects.isEmpty then st
else
  let st := { st with templates := st.templates ++ seedTemplates,
                      projects := st.projects ++ [seedProject],
                      sections := st.sections ++ seedSections }
  load_seed_data_from_json st seedFile now

/-- Referential integrity of the testrail store: every stored result
references an existing case. -/
def refOk (st : Store) : Prop :=
∀ r ∈ st.results, ∃ c ∈ st.cases, c.id = r.case_id

/-- A store with none of the tables populated (a fresh database). -/
def emptyStore : Store :=
{ projects := [], sections := [], templates := [], cases := [],
  results := [], runs := [], run_entries := [] }

end TestRail

namespace Slack

/-- Referential integrity of the slack store: every stored message
references an existing channel. -/
def refOk (st : Store) : Prop :=
∀ m ∈ st.messages, ∃ c ∈ st.channels, c.id = m.channel_id

end Slack

/-- A one-issue jira store used to evaluate claims on concrete inputs. -/
def jiraRow1 : Jira.IssueRow :=
{ id := 1, key := some "QA-1", summary := .str "Login page not loading",
  description := .str "When clicking login, page shows 404 error",
  issue_type := .str "Task", created_on := "2025-01-01 10:00:00" }

/-- A jira store holding just `jiraRow1`. -/
def jiraStore1 : Jira.Store :=
{ rows := [jiraRow1], nextId := 2 }

/-- A slack store holding the two seed channels and no messages. -/
def slackStore1 : Slack.Store :=
{ channels := Slack.seedChannels, messages := [] }

/-- A one-case testrail store over the seeded project and sections. -/
def trCase1 : TestRail.TestCaseRow :=
{ id := 1, section_id := 1, title := "Login with valid credentials",
  template_id := 2, created_on := 0, updated_on := 0 }

/-- A testrail store holding just `trCase1` beside the seed fixtures. -/
def trStore1 : TestRail.Store :=
{ projects := [TestRail.seedProject], sections := TestRail.seedSections,
  templates := TestRail.seedTemplates, cases := [trCase1], results := [],
  runs := [], run_entries := [], nextCaseId := 2 }

/-! ### Helper lemmas about the jira `SET` clause -/

theorem applySet_summary_ne (r : Jira.IssueRow) (kv : String × Json)
    (h : kv.1 ≠ "summary") : (Jira.applySet r kv).summary = r.summary := by
unfold Jira.applySet
split_ifs <;> simp_all

theorem applySet_description_ne (r : Jira.IssueRow) (kv : String × Json)
    (h : kv.1 ≠ "description") : (Jira.applySet r kv).description = r.description := by
unfold Jira.applySet
split_ifs <;> simp_all

theorem applySet_issue_type_ne (r : Jira.IssueRow) (kv : String × Json)
    (h : kv.1 ≠ "issue_type") : (Jira.applySet r kv).issue_type = r.issue_type := by
unfold Jira.applySet
split_ifs <;> simp_all

theorem applySet_priority_ne (r : Jira.IssueRow) (kv : String × Json)
    (h : kv.1 ≠ "priority") : (Jira.applySet r kv).priority = r.priority := by
unfold Jira.applySet
split_ifs <;> simp_all

theorem applySet_assignee_ne (r : Jira.IssueRow) (kv : String × Json)
    (h : kv.1 ≠ "assignee") : (Jira.applySet r kv).assignee = r.assignee := by
unfold Jira.applySet
split_ifs <;> simp_all

theorem applySet_reporter_ne (r : Jira.IssueRow) (kv : String × Json)
    (h : kv.1 ≠ "reporter") : (Jira.applySet r kv).reporter = r.reporter := by
unfold Jira.applySet
split_ifs <;> simp_all

theorem applySet_labels_ne (r : Jira.IssueRow) (kv : String × Json)
    (h : kv.1 ≠ "labels") : (Jira.applySet r kv).labels = r.labels := by
unfold Jira.applySet
split_ifs <;> simp_all

theorem applySet_components_ne (r : Jira.IssueRow) (kv : String × Json)
    (h : kv.1 ≠ "components") : (Jira.applySet r kv).components = r.components := by
unfold Jira.applySet
split_ifs <;> simp_all

theorem applySet_fixed (r : Jira.IssueRow) (kv : String × Json) :
    (Jira.applySet r kv).id = r.id ∧ (Jira.applySet r kv).key = r.key
    ∧ (Jira.applySet r kv).created_on = r.created_on
    ∧ (Jira.applySet r kv).updated_on = r.updated_on := by
unfold Jira.applySet
split_ifs <;> simp_all

theorem foldl_summary_ne (us : List (String × Json)) (r : Jira.IssueRow)
    (h : ∀ kv ∈ us, kv.1 ≠ "summary") :
    (us.foldl Jira.applySet r).summary = r.summary := by
induction us generalizing r with
| nil => rfl
| cons kv tl ih =>
  rw [List.foldl_cons, ih _ (fun x hx => h x (List.mem_cons_of_mem _ hx)),
    applySet_summary_ne r kv (h kv (List.mem_cons_self _ _))]

theorem foldl_description_ne (us : List (String × Json)) (r : Jira.IssueRow)
    (h : ∀ kv ∈ us, kv.1 ≠ "description") :
    (us.foldl Jira.applySet r).description = r.description := by
induction us generalizing r with
| nil => rfl
| cons kv tl ih =>
  rw [List.foldl_cons, ih _ (fun x hx => h x (List.mem_cons_of_mem _ hx)),
    applySet_description_ne r kv (h kv (List.mem_cons_self _ _))]

theorem foldl_issue_type_ne (us : List (String × Json)) (r : Jira.IssueRow)
    (h : ∀ kv ∈ us, kv.1 ≠ "issue_type") :
    (us.foldl Jira.applySet r).issue_type = r.issue_type := by
induction us generalizing r with
| nil => rfl
| cons kv tl ih =>
  rw [List.foldl_cons, ih _ (fun x hx => h x (List.mem_cons_of_mem _ hx)),
    applySet_issue_type_ne r kv (h kv (List.mem_cons_self _ _))]

theorem foldl_priority_ne (us : List (String × Json)) (r : Jira.IssueRow)
    (h : ∀ kv ∈ us, kv.1 ≠ "priority") :
    (us.foldl Jira.applySet r).priority = r.priority := by
induction us generalizing r with
| nil => rfl
| cons kv tl ih =>
  rw [List.foldl_cons, ih _ (fun x hx => h x (List.mem_cons_of_mem _ hx)),
    applySet_priority_ne r kv (h kv (List.mem_cons_self _ _))]

theorem foldl_assignee_ne (us : List (String × Json)) (r : Jira.IssueRow)
    (h : ∀ kv ∈ us, kv.1 ≠ "assignee") :
    (us.foldl Jira.applySet r).assignee = r.assignee := by
induction us generalizing r with
| nil => rfl
| cons kv tl ih =>
  rw [List.foldl_cons, ih _ (fun x hx => h x (List.mem_cons_of_mem _ hx)),
    applySet_assignee_ne r kv (h kv (List.mem_cons_self _ _))]

theorem foldl_reporter_ne (us : List (String × Json)) (r : Jira.IssueRow)
    (h : ∀ kv ∈ us, kv.1 ≠ "reporter") :
    (us.foldl Jira.applySet r).reporter = r.reporter := by
induction us generalizing r with
| nil => rfl
| cons kv tl ih =>
  rw [List.foldl_cons, ih _ (fun x hx => h x (List.mem_cons_of_mem _ hx)),
    applySet_reporter_ne r kv (h kv (List.mem_cons_self _ _))]

theorem foldl_labels_ne (us : List (String × Json)) (r : Jira.IssueRow)
    (h : ∀ kv ∈ us, kv.1 ≠ "labels") :
    (us.foldl Jira.applySet r).labels = r.labels := by
induction us generalizing r with
| nil => rfl
| cons kv tl ih =>
  rw [List.foldl_cons, ih _ (fun x hx => h x (List.mem_cons_of_mem _ hx)),
    applySet_labels_ne r kv (h kv (List.mem_cons_self _ _))]

theorem foldl_components_ne (us : List (String × Json)) (r : Jira.IssueRow)
    (h : ∀ kv ∈ us, kv.1 ≠ "components") :
    (us.foldl Jira.applySet r).components = r.components := by
induction us generalizing r with
| nil => rfl
| cons kv tl ih =>
  rw [List.foldl_cons, ih _ (fun x hx => h x (List.mem_cons_of_mem _ hx)),
    applySet_components_ne r kv (h kv (List.mem_cons_self _ _))]

theorem foldl_fixed (us : List (String × Json)) (r : Jira.IssueRow) :
    (us.foldl Jira.applySet r).id = r.id ∧ (us.foldl Jira.applySet r).key = r.key
    ∧ (us.foldl Jira.applySet r).created_on = r.created_on := by
induction us generalizing r with
| nil => exact ⟨rfl, rfl, rfl⟩
| cons kv tl ih =>
  have h1 := applySet_fixed r kv
  have h2 := ih (Jira.applySet r kv)
  rw [List.foldl_cons]
  exact ⟨h2.1.trans h1.1, h2.2.1.trans h1.2.1, h2.2.2.trans h1.2.2.1⟩

theorem key_updSummary (fields : Json) (kv : String × Json)
    (h : kv ∈ Jira.updSummary fields) : kv.1 = "summary" := by
unfold Jira.updSummary at h
rcases hg : fields.get? "summary" with _ | v <;> rw [hg] at h <;> simp_all

theorem key_updDescription (fields : Json) (kv : String × Json)
    (h : kv ∈ Jira.updDescription fields) : kv.1 = "description" := by
unfold Jira.updDescription at h
rcases hg : fields.get? "description" with _ | v <;> rw [hg] at h <;> simp_all

theorem key_updIssuetype (fields : Json) (kv : String × Json)
    (h : kv ∈ Jira.updIssuetype fields) : kv.1 = "issue_type" := by
unfold Jira.updIssuetype at h
rcases hg : fields.get? "issuetype" with _ | v <;> rw [hg] at h
· simp_all
· cases v <;> simp_all

theorem key_updPriority (fields : Json) (kv : String × Json)
    (h : kv ∈ Jira.updPriority fields) : kv.1 = "priority" := by
unfold Jira.updPriority at h
rcases hg : fields.get? "priority" with _ | v <;> rw [hg] at h
· simp_all
· cases v <;> simp_all

theorem key_updAssignee (fields : Json) (kv : String × Json)
    (h : kv ∈ Jira.updAssignee fields) : kv.1 = "assignee" := by
unfold Jira.updAssignee at h
rcases hg : fields.get? "assignee" with _ | v <;> rw [hg] at h
· simp_all
· cases v <;> simp_all

theorem key_updReporter (fields : Json) (kv : String × Json)
    (h : kv ∈ Jira.updReporter fields) : kv.1 = "reporter" := by
unfold Jira.updReporter at h
rcases hg : fields.get? "reporter" with _ | v <;> rw [hg] at h
· simp_all
· cases v <;> simp_all

theorem key_updLabels (fields : Json) (kv : String × Json)
    (h : kv ∈ Jira.updLabels fields) : kv.1 = "labels" := by
unfold Jira.updLabels at h
rcases hg : fields.get? "labels" with _ | v <;> rw [hg] at h <;> simp_all

theorem key_updComponents (fields : Json) (kv : String × Json)
    (h : kv ∈ Jira.updComponents fields) : kv.1 = "components" := by
unfold Jira.updComponents at h
rcases hg : fields.get? "components" with _ | v <;> rw [hg] at h <;> simp_all

theorem applyUpdates_summary (fields : Json) (r : Jira.IssueRow) (now : String) :
    (Jira.applyUpdates r (Jira.computeUpdates fields) now).summary
      = match fields.get? "summary" with
        | some v => v
        | none => r.summary := by
show (List.foldl Jira.applySet r (Jira.computeUpdates fields)).summary = _
unfold Jira.computeUpdates
simp only [List.foldl_append]
rw [foldl_summary_ne _ _ (fun kv hm => by rw [key_updComponents fields kv hm]; decide)]
rw [foldl_summary_ne _ _ (fun kv hm => by rw [key_updLabels fields kv hm]; decide)]
rw [foldl_summary_ne _ _ (fun kv hm => by rw [key_updReporter fields kv hm]; decide)]
rw [foldl_summary_ne _ _ (fun kv hm => by rw [key_updAssignee fields kv hm]; decide)]
rw [foldl_summary_ne _ _ (fun kv hm => by rw [key_updPriority fields kv hm]; decide)]
rw [foldl_summary_ne _ _ (fun kv hm => by rw [key_updIssuetype fields kv hm]; decide)]
rw [foldl_summary_ne _ _ (fun kv hm => by rw [key_updDescription fields kv hm]; decide)]
rcases hg : fields.get? "summary" with _ | v <;> simp [Jira.updSummary, hg, Jira.applySet]

theorem applyUpdates_description (fields : Json) (r : Jira.IssueRow) (now : String) :
    (Jira.applyUpdates r (Jira.computeUpdates fields) now).description
      = match fields.get? "description" with
        | some v => v
        | none => r.description := by
show (List.foldl Jira.applySet r (Jira.computeUpdates fields)).description = _
unfold Jira.computeUpdates
simp only [List.foldl_append]
rw [foldl_description_ne _ _ (fun kv hm => by rw [key_updComponents fields kv hm]; decide)]
rw [foldl_description_ne _ _ (fun kv hm => by rw [key_updLabels fields kv hm]; decide)]
rw [foldl_description_ne _ _ (fun kv hm => by rw [key_updReporter fields kv hm]; decide)]
rw [foldl_description_ne _ _ (fun kv hm => by rw [key_updAssignee fields kv hm]; decide)]
rw [foldl_description_ne _ _ (fun kv hm => by rw [key_updPriority fields kv hm]; decide)]
rw [foldl_description_ne _ _ (fun kv hm => by rw [key_updIssuetype fields kv hm]; decide)]
rcases hg : fields.get? "description" with _ | v <;>
  simp [Jira.updDescription, hg, Jira.applySet,
    foldl_description_ne _ _ (fun kv hm => by rw [key_updSummary fields kv hm]; decide)]

theorem applyUpdates_issue_type (fields : Json) (r : Jira.IssueRow) (now : String) :
    (Jira.applyUpdates r (Jira.computeUpdates fields) now).issue_type
      = match fields.get? "issuetype" with
        | some (.obj kvs) => ((Json.obj kvs).get? "name").getD .null
        | some _ => r.issue_type
        | none => r.issue_type := by
show (List.foldl Jira.applySet r (Jira.computeUpdates fields)).issue_type = _
unfold Jira.computeUpdates
simp only [List.foldl_append]
rw [foldl_issue_type_ne _ _ (fun kv hm => by rw [key_updComponents fields kv hm]; decide)]
rw [foldl_issue_type_ne _ _ (fun kv hm => by rw [key_updLabels fields kv hm]; decide)]
rw [foldl_issue_type_ne _ _ (fun kv hm => by rw [key_updReporter fields kv hm]; decide)]
rw [foldl_issue_type_ne _ _ (fun kv hm => by rw [key_updAssignee fields kv hm]; decide)]
rw [foldl_issue_type_ne _ _ (fun kv hm => by rw [key_updPriority fields kv hm]; decide)]
have hpre : ∀ kv ∈ Jira.updSummary fields ++ Jira.updDescription fields,
    kv.1 ≠ "issue_type" := by
  intro kv hm
  rcases List.mem_append.mp hm with hm1 | hm2
  · rw [key_updSummary fields kv hm1]; decide
  · rw [key_updDescription fields kv hm2]; decide
rcases hg : fields.get? "issuetype" with _ | v
· simp [Jira.updIssuetype, hg, ← List.foldl_append,
    foldl_issue_type_ne _ _ hpre]
· cases v <;>
    simp [Jira.updIssuetype, hg, Jira.applySet, ← List.foldl_append,
      foldl_issue_type_ne _ _ hpre]

theorem applyUpdates_priority (fields : Json) (r : Jira.IssueRow) (now : String) :
    (Jira.applyUpdates r (Jira.computeUpdates fields) now).priority
      = match fields.get? "priority" with
        | some (.obj kvs) => ((Json.obj kvs).get? "name").getD .null
        | some v => v
        | none => r.priority := by
show (List.foldl Jira.applySet r (Jira.computeUpdates fields)).priority = _
unfold Jira.computeUpdates
simp only [List.foldl_append]
rw [foldl_priority_ne _ _ (fun kv hm => by rw [key_updComponents fields kv hm]; decide)]
rw [foldl_priority_ne _ _ (fun kv hm => by rw [key_updLabels fields kv hm]; decide)]
rw [foldl_priority_ne _ _ (fun kv hm => by rw [key_updReporter fields kv hm]; decide)]
rw [foldl_priority_ne _ _ (fun kv hm => by rw [key_updAssignee fields kv hm]; decide)]
rcases hg : fields.get? "priority" with _ | v
· rw [show Jira.updPriority fields = [] from by simp [Jira.updPriority, hg]]
  rw [List.foldl_nil]
  rw [foldl_priority_ne _ _ (fun kv hm => by rw [key_updIssuetype fields kv hm]; decide)]
  rw [foldl_priority_ne _ _ (fun kv hm => by rw [key_updDescription fields kv hm]; decide)]
  rw [foldl_priority_ne _ _ (fun kv hm => by rw [key_updSummary fields kv hm]; decide)]
· cases v <;> simp [Jira.updPriority, hg, Jira.applySet]

theorem applyUpdates_assignee (fields : Json) (r : Jira.IssueRow) (now : String) :
    (Jira.applyUpdates r (Jira.computeUpdates fields) now).assignee
      = match fields.get? "assignee" with
        | some (.obj kvs) => ((Json.obj kvs).get? "name").getD .null
        | some v => v
        | none => r.assignee := by
show (List.foldl Jira.applySet r (Jira.computeUpdates fields)).assignee = _
unfold Jira.computeUpdates
simp only [List.foldl_append]
rw [foldl_assignee_ne _ _ (fun kv hm => by rw [key_updComponents fields kv hm]; decide)]
rw [foldl_assignee_ne _ _ (fun kv hm => by rw [key_updLabels fields kv hm]; decide)]
rw [foldl_assignee_ne _ _ (fun kv hm => by rw [key_updReporter fields kv hm]; decide)]
rcases hg : fields.get? "assignee" with _ | v
· rw [show Jira.updAssignee fields = [] from by simp [Jira.updAssignee, hg]]
  rw [List.foldl_nil]
  rw [foldl_assignee_ne _ _ (fun kv hm => by rw [key_updPriority fields kv hm]; decide)]
  rw [foldl_assignee_ne _ _ (fun kv hm => by rw [key_updIssuetype fields kv hm]; decide)]
  rw [foldl_assignee_ne _ _ (fun kv hm => by rw [key_updDescription fields kv hm]; decide)]
  rw [foldl_assignee_ne _ _ (fun kv hm => by rw [key_updSummary fields kv hm]; decide)]
· cases v <;> simp [Jira.updAssignee, hg, Jira.applySet]

theorem applyUpdates_reporter (fields : Json) (r : Jira.IssueRow) (now : String) :
    (Jira.applyUpdates r (Jira.computeUpdates fields) now).reporter
      = match fields.get? "reporter" with
        | some (.obj kvs) => ((Json.obj kvs).get? "name").getD .null
        | some v => v
        | none => r.reporter := by
show (List.foldl Jira.applySet r (Jira.computeUpdates fields)).reporter = _
unfold Jira.computeUpdates
simp only [List.foldl_append]
rw [foldl_reporter_ne _ _ (fun kv hm => by rw [key_updComponents fields kv hm]; decide)]
rw [foldl_reporter_ne _ _ (fun kv hm => by rw [key_updLabels fields kv hm]; decide)]
rcases hg : fields.get? "reporter" with _ | v
· rw [show Jira.updReporter fields = [] from by simp [Jira.updReporter, hg]]
  rw [List.foldl_nil]
  rw [foldl_reporter_ne _ _ (fun kv hm => by rw [key_updAssignee fields kv hm]; decide)]
  rw [foldl_reporter_ne _ _ (fun kv hm => by rw [key_updPriority fields kv hm]; decide)]
  rw [foldl_reporter_ne _ _ (fun kv hm => by rw [key_updIssuetype fields kv hm]; decide)]
  rw [foldl_reporter_ne _ _ (fun kv hm => by rw [key_updDescription fields kv hm]; decide)]
  rw [foldl_reporter_ne _ _ (fun kv hm => by rw [key_updSummary fields kv hm]; decide)]
· cases v <;> simp [Jira.updReporter, hg, Jira.applySet]

theorem applyUpdates_labels (fields : Json) (r : Jira.IssueRow) (now : String) :
    (Jira.applyUpdates r (Jira.computeUpdates fields) now).labels
      = match fields.get? "labels" with
        | some v => Json.str (jsonDump v)
        | none => r.labels := by
show (List.foldl Jira.applySet r (Jira.computeUpdates fields)).labels = _
unfold Jira.computeUpdates
simp only [List.foldl_append]
rw [foldl_labels_ne _ _ (fun kv hm => by rw [key_updComponents fields kv hm]; decide)]
rcases hg : fields.get? "labels" with _ | v
· rw [show Jira.updLabels fields = [] from by simp [Jira.updLabels, hg]]
  rw [List.foldl_nil]
  rw [foldl_labels_ne _ _ (fun kv hm => by rw [key_updReporter fields kv hm]; decide)]
  rw [foldl_labels_ne _ _ (fun kv hm => by rw [key_updAssignee fields kv hm]; decide)]
  rw [foldl_labels_ne _ _ (fun kv hm => by rw [key_updPriority fields kv hm]; decide)]
  rw [foldl_labels_ne _ _ (fun kv hm => by rw [key_updIssuetype fields kv hm]; decide)]
  rw [foldl_labels_ne _ _ (fun kv hm => by rw [key_updDescription fields kv hm]; decide)]
  rw [foldl_labels_ne _ _ (fun kv hm => by rw [key_updSummary fields kv hm]; decide)]
· simp [Jira.updLabels, hg, Jira.applySet]

theorem applyUpdates_components (fields : Json) (r : Jira.IssueRow) (now : String) :
    (Jira.applyUpdates r (Jira.computeUpdates fields) now).components
      = match fields.get? "components" with
        | some v => Json.str (jsonDump v)
        | none => r.components := by
show (List.foldl Jira.applySet r (Jira.computeUpdates fields)).components = _
unfold Jira.computeUpdates
simp only [List.foldl_append]
rcases hg : fields.get? "components" with _ | v
· rw [show Jira.updComponents fields = [] from by simp [Jira.updComponents, hg]]
  rw [List.foldl_nil]
  rw [foldl_components_ne _ _ (fun kv hm => by rw [key_updLabels fields kv hm]; decide)]
  rw [foldl_components_ne _ _ (fun kv hm => by rw [key_updReporter fields kv hm]; decide)]
  rw [foldl_components_ne _ _ (fun kv hm => by rw [key_updAssignee fields kv hm]; decide)]
  rw [foldl_components_ne _ _ (fun kv hm => by rw [key_updPriority fields kv hm]; decide)]
  rw [foldl_components_ne _ _ (fun kv hm => by rw [key_updIssuetype fields kv hm]; decide)]
  rw [foldl_components_ne _ _ (fun kv hm => by rw [key_updDescription fields kv hm]; decide)]
  rw [foldl_components_ne _ _ (fun kv hm => by rw [key_updSummary fields kv hm]; decide)]
· simp [Jira.updComponents, hg, Jira.applySet]

theorem applyUpdates_fixed (fields : Json) (r : Jira.IssueRow) (now : String) :
    (Jira.applyUpdates r (Jira.computeUpdates fields) now).id = r.id
    ∧ (Jira.applyUpdates r (Jira.computeUpdates fields) now).key = r.key
    ∧ (Jira.applyUpdates r (Jira.computeUpdates fields) now).created_on = r.created_on
    ∧ (Jira.applyUpdates r (Jira.computeUpdates fields) now).updated_on = some now := by
refine ⟨?_, ?_, ?_, rfl⟩
· exact (foldl_fixed (Jira.computeUpdates fields) r).1
· exact (foldl_fixed (Jira.computeUpdates fields) r).2.1
· exact (foldl_fixed (Jira.computeUpdates fields) r).2.2

/-- The store produced by a successful `update_issue` maps the matching
rows through `applyUpdates` and keeps every other row. -/
theorem update_issue_rows (st : Jira.Store) (issue_key : String) (p : Json)
    (auth : Option String) (now : String) (row : Jira.IssueRow)
    (hauth : Jira.require_bearer auth = true)
    (htruthy : (Jira.extractFields p).truthy = true)
    (hupd : Jira.computeUpdates (Jira.extractFields p) ≠ [])
    (hfind : Jira.findByKey st issue_key = some row) :
    (Jira.update_issue st issue_key (some p) auth now).2.rows
      = st.rows.map (fun r => if r.key == some issue_key then
          Jira.applyUpdates r (Jira.computeUpdates (Jira.extractFields p)) now else r) := by
have hne : (Jira.computeUpdates (Jira.extractFields p)).isEmpty = false := by
  rcases hU : Jira.computeUpdates (Jira.extractFields p) with _ | ⟨u, us⟩
  · exact absurd hU hupd
  · rfl
simp only [Jira.update_issue, hauth, htruthy, hne, hfind, Bool.not_true,
  Bool.false_eq_true, if_false, if_neg]

/-! ### C3, C5: jira PATCH / testrail PUT semantics -/

/-- C3 (counterexample): on the one-issue store, an authorized
`PATCH /rest/api/3/issue/QA-1` whose `fields` carry the key
`"issuetype"` with the non-object value `"Bug"` succeeds with 200, yet
the stored `issue_type` column keeps its old value `"Task"` — the
present key did not modify its column, contradicting the claim. -/
theorem C3_counterexample :
    (Jira.extractFields (Json.obj [("fields", Json.obj
        [("summary", Json.str "Updated summary"), ("issuetype", Json.str "Bug")])])).hasKey
      "issuetype" = true
    ∧ (Jira.update_issue jiraStore1 "QA-1"
        (some (Json.obj [("fields", Json.obj
          [("summary", Json.str "Updated summary"), ("issuetype", Json.str "Bug")])]))
        (some "Bearer token") "2025-01-02 09:00:00").1.status = 200
    ∧ jiraRow1.issue_type = Json.str "Task"
    ∧ (Jira.update_issue jiraStore1 "QA-1"
        (some (Json.obj [("fields", Json.obj
          [("summary", Json.str "Updated summary"), ("issuetype", Json.str "Bug")])]))
        (some "Bearer token") "2025-01-02 09:00:00").2.rows.map
        (fun r => r.issue_type) = [Json.str "Task"] :=
⟨rfl, rfl, rfl, rfl⟩

/-- C3 (amended): a successful authorized jira PATCH rewrites exactly the
matching rows; on each, every column whose payload key is absent keeps
its value, every present key writes its (transformed) value — except
that a present `issuetype` key is applied only when its value is a JSON
object — and id/key/created_on are never touched while `updated_on` is
set to the request time.  A testrail PUT on an existing case writes
exactly the payload members that were set, keeps the others, and leaves
every other case row unchanged. -/
theorem C3_partial_field_update (st : Jira.Store) (issue_key : String) (p : Json)
    (auth : Option String) (now : String) (row : Jira.IssueRow)
    (hauth : Jira.require_bearer auth = true)
    (htruthy : (Jira.extractFields p).truthy = true)
    (hupd : Jira.computeUpdates (Jira.extractFields p) ≠ [])
    (hfind : Jira.findByKey st issue_key = some row)
    (tst : TestRail.Store) (case_id : Nat) (c : TestRail.TestCaseCreateIn) (tnow : Nat)
    (trow : TestRail.TestCaseRow)
    (htfind : tst.cases.find? (fun x => x.id == case_id) = some trow) :
    ((Jira.update_issue st issue_key (some p) auth now).2.rows
        = st.rows.map (fun r => if r.key == some issue_key then
            Jira.applyUpdates r (Jira.computeUpdates (Jira.extractFields p)) now else r)
      ∧ (∀ r ∈ st.rows, r.key ≠ some issue_key →
          r ∈ (Jira.update_issue st issue_key (some p) auth now).2.rows)
      ∧ (∀ r : Jira.IssueRow,
          (Jira.applyUpdates r (Jira.computeUpdates (Jira.extractFields p)) now).id = r.id
          ∧ (Jira.applyUpdates r (Jira.computeUpdates (Jira.extractFields p)) now).key = r.key
          ∧ (Jira.applyUpdates r (Jira.computeUpdates (Jira.extractFields p)) now).created_on
              = r.created_on
          ∧ (Jira.applyUpdates r (Jira.computeUpdates (Jira.extractFields p)) now).updated_on
              = some now
          ∧ (Jira.applyUpdates r (Jira.computeUpdates (Jira.extractFields p)) now).summary
              = (match (Jira.extractFields p).get? "summary" with
                 | some v => v
                 | none => r.summary)
          ∧ (Jira.applyUpdates r (Jira.computeUpdates (Jira.extractFields p)) now).description
              = (match (Jira.extractFields p).get? "description" with
                 | some v => v
                 | none => r.description)
          ∧ (Jira.applyUpdates r (Jira.computeUpdates (Jira.extractFields p)) now).issue_type
              = (match (Jira.extractFields p).get? "issuetype" with
                 | some (.obj kvs) => ((Json.obj kvs).get? "name").getD .null
                 | some _ => r.issue_type
                 | none => r.issue_type)
          ∧ (Jira.applyUpdates r (Jira.computeUpdates (Jira.extractFields p)) now).priority
              = (match (Jira.extractFields p).get? "priority" with
                 | some (.obj kvs) => ((Json.obj kvs).get? "name").getD .null
                 | some v => v
                 | none => r.priority)
          ∧ (Jira.applyUpdates r (Jira.computeUpdates (Jira.extractFields p)) now).assignee
              = (match (Jira.extractFields p).get? "assignee" with
                 | some (.obj kvs) => ((Json.obj kvs).get? "name").getD .null
                 | some v => v
                 | none => r.assignee)
          ∧ (Jira.applyUpdates r (Jira.computeUpdates (Jira.extractFields p)) now).reporter
              = (match (Jira.extractFields p).get? "reporter" with
                 | some (.obj kvs) => ((Json.obj kvs).get? "name").getD .null
                 | some v => v
                 | none => r.reporter)
          ∧ (Jira.applyUpdates r (Jira.computeUpdates (Jira.extractFields p)) now).labels
              = (match (Jira.extractFields p).get? "labels" with
                 | some v => Json.str (jsonDump v)
                 | none => r.labels)
          ∧ (Jira.applyUpdates r (Jira.computeUpdates (Jira.extractFields p)) now).components
              = (match (Jira.extractFields p).get? "components" with
                 | some v => Json.str (jsonDump v)
                 | none => r.components)))
    ∧ ((TestRail.update_case tst case_id c tnow).1
          = .ok 200 (TestRail.applyCaseUpdate trow c tnow)
      ∧ (TestRail.update_case tst case_id c tnow).2.cases
          = tst.cases.map (fun x => if x.id == case_id then
              TestRail.applyCaseUpdate x c tnow else x)
      ∧ (∀ x ∈ tst.cases, x.id ≠ case_id →
          x ∈ (TestRail.update_case tst case_id c tnow).2.cases)
      ∧ (∀ x : TestRail.TestCaseRow,
          (TestRail.applyCaseUpdate x c tnow).id = x.id
          ∧ (TestRail.applyCaseUpdate x c tnow).section_id = x.section_id
          ∧ (TestRail.applyCaseUpdate x c tnow).created_on = x.created_on
          ∧ (TestRail.applyCaseUpdate x c tnow).updated_on = tnow
          ∧ (TestRail.applyCaseUpdate x c tnow).title = c.title
          ∧ (TestRail.applyCaseUpdate x c tnow).template_id
              = c.template_id.getD x.template_id
          ∧ (TestRail.applyCaseUpdate x c tnow).type_id = c.type_id.getD x.type_id
          ∧ (TestRail.applyCaseUpdate x c tnow).priority_id
              = c.priority_id.getD x.priority_id
          ∧ (TestRail.applyCaseUpdate x c tnow).steps = c.steps.getD x.steps
          ∧ (TestRail.applyCaseUpdate x c tnow).expected_result
              = c.expected_result.getD x.expected_result
          ∧ (TestRail.applyCaseUpdate x c tnow).preconditions
              = c.preconditions.getD x.preconditions)) := by
constructor
· refine ⟨update_issue_rows st issue_key p auth now row hauth htruthy hupd hfind, ?_, ?_⟩
  · intro r hr hrk
    rw [update_issue_rows st issue_key p auth now row hauth htruthy hupd hfind]
    have : (if r.key == some issue_key then
        Jira.applyUpdates r (Jira.computeUpdates (Jira.extractFields p)) now else r) = r := by
      rw [if_neg]
      simp [hrk]
    exact this ▸ List.mem_map_of_mem _ hr
  · intro r
    refine ⟨(applyUpdates_fixed _ r now).1, (applyUpdates_fixed _ r now).2.1,
      (applyUpdates_fixed _ r now).2.2.1, (applyUpdates_fixed _ r now).2.2.2,
      applyUpdates_summary _ r now, applyUpdates_description _ r now,
      applyUpdates_issue_type _ r now, applyUpdates_priority _ r now,
      applyUpdates_assignee _ r now, applyUpdates_reporter _ r now,
      applyUpdates_labels _ r now, applyUpdates_components _ r now⟩
· have hres : TestRail.update_case tst case_id c tnow
      = (.ok 200 (TestRail.applyCaseUpdate trow c tnow),
         { tst with cases := tst.cases.map (fun x => if x.id == case_id then
             TestRail.applyCaseUpdate x c tnow else x) }) := by
    simp only [TestRail.update_case, htfind]
  refine ⟨by rw [hres], by rw [hres], ?_, ?_⟩
  · intro x hx hxk
    rw [hres]
    have : (if x.id == case_id then TestRail.applyCaseUpdate x c tnow else x) = x := by
      rw [if_neg]
      simp [hxk]
    exact this ▸ List.mem_map_of_mem _ hx
  · intro x
    unfold TestRail.applyCaseUpdate
    exact ⟨rfl, rfl, rfl, rfl, rfl, rfl, rfl, rfl, rfl, rfl, rfl⟩

/-- C3 (witness): the amended theorem evaluated on the one-issue jira
store and the one-case testrail store with concrete payloads. -/
theorem C3_witness :
    Jira.require_bearer (some "Bearer tok") = true
    ∧ (Jira.extractFields (Json.obj [("fields", Json.obj
        [("summary", Json.str "s2")])])).truthy = true
    ∧ Jira.computeUpdates (Jira.extractFields (Json.obj [("fields", Json.obj
        [("summary", Json.str "s2")])])) ≠ []
    ∧ Jira.findByKey jiraStore1 "QA-1" = some jiraRow1
    ∧ trStore1.cases.find? (fun x => x.id == 1) = some trCase1
    ∧ (Jira.update_issue jiraStore1 "QA-1" (some (Json.obj [("fields", Json.obj
        [("summary", Json.str "s2")])])) (some "Bearer tok") "T1").2.rows
        = jiraStore1.rows.map (fun r => if r.key == some "QA-1" then
            Jira.applyUpdates r (Jira.computeUpdates (Jira.extractFields
              (Json.obj [("fields", Json.obj [("summary", Json.str "s2")])]))) "T1" else r) := by
have hupd : Jira.computeUpdates (Jira.extractFields (Json.obj [("fields", Json.obj
    [("summary", Json.str "s2")])])) ≠ [] := fun h => nomatch h
refine ⟨rfl, rfl, hupd, rfl, rfl, ?_⟩
exact (C3_partial_field_update jiraStore1 "QA-1"
  (Json.obj [("fields", Json.obj [("summary", Json.str "s2")])])
  (some "Bearer tok") "T1" jiraRow1 rfl rfl hupd rfl
  trStore1 1 { title := "t" } 5 trCase1 rfl).1.1

/-- C5: under valid auth, jira `update_issue` answers 400 for a body
that is not JSON, for a missing/falsy `fields` object, and for a
`fields` object contributing no updatable columns; it answers 404 when
the updates are non-empty but no issue has the key; and in each of
these error cases the store is returned unchanged. -/
theorem C5_update_error_contract (st : Jira.Store) (issue_key : String)
    (auth : Option String) (now : String)
    (hauth : Jira.require_bearer auth = true) :
    Jira.update_issue st issue_key none auth now = (.err 400, st)
    ∧ (∀ p : Json, (Jira.extractFields p).truthy = false →
        Jira.update_issue st issue_key (some p) auth now = (.err 400, st))
    ∧ (∀ p : Json, (Jira.extractFields p).truthy = true →
        Jira.computeUpdates (Jira.extractFields p) = [] →
        Jira.update_issue st issue_key (some p) auth now = (.err 400, st))
    ∧ (∀ p : Json, (Jira.extractFields p).truthy = true →
        Jira.computeUpdates (Jira.extractFields p) ≠ [] →
        Jira.findByKey st issue_key = none →
        Jira.update_issue st issue_key (some p) auth now = (.err 404, st)) := by
refine ⟨?_, ?_, ?_, ?_⟩
· simp [Jira.update_issue, hauth]
· intro p hp
  simp [Jira.update_issue, hauth, hp]
· intro p hp hU
  simp [Jira.update_issue, hauth, hp, hU]
· intro p hp hU hfind
  have hne : (Jira.computeUpdates (Jira.extractFields p)).isEmpty = false := by
    rcases hE : Jira.computeUpdates (Jira.extractFields p) with _ | ⟨u, us⟩
    · exact absurd hE hU
    · rfl
  simp [Jira.update_issue, hauth, hp, hne, hfind]

/-- C5 (witness): the error contract evaluated on the one-issue store —
no JSON, missing fields, an empty fields object, a fields object with
only unknown keys, and an update aimed at an absent key. -/
theorem C5_witness :
    Jira.require_bearer (some "Bearer t") = true
    ∧ Jira.update_issue jiraStore1 "QA-9" none (some "Bearer t") "T"
        = (.err 400, jiraStore1)
    ∧ Jira.update_issue jiraStore1 "QA-9" (some (Json.obj [])) (some "Bearer t") "T"
        = (.err 400, jiraStore1)
    ∧ Jira.update_issue jiraStore1 "QA-9" (some (Json.obj [("fields", Json.obj [])]))
        (some "Bearer t") "T" = (.err 400, jiraStore1)
    ∧ Jira.update_issue jiraStore1 "QA-9" (some (Json.obj [("fields", Json.obj
        [("bogus", Json.str "x")])])) (some "Bearer t") "T" = (.err 400, jiraStore1)
    ∧ Jira.update_issue jiraStore1 "QA-9" (some (Json.obj [("fields", Json.obj
        [("summary", Json.str "s")])])) (some "Bearer t") "T" = (.err 404, jiraStore1) := by
refine ⟨rfl, ?_, ?_, ?_, ?_, ?_⟩
· exact (C5_update_error_contract jiraStore1 "QA-9" (some "Bearer t") "T" rfl).1
· exact (C5_update_error_contract jiraStore1 "QA-9" (some "Bearer t") "T" rfl).2.1
    (Json.obj []) rfl
· exact (C5_update_error_contract jiraStore1 "QA-9" (some "Bearer t") "T" rfl).2.1
    (Json.obj [("fields", Json.obj [])]) rfl
· exact (C5_update_error_contract jiraStore1 "QA-9" (some "Bearer t") "T" rfl).2.2.1
    (Json.obj [("fields", Json.obj [("bogus", Json.str "x")])]) rfl rfl
· exact (C5_update_error_contract jiraStore1 "QA-9" (some "Bearer t") "T" rfl).2.2.2
    (Json.obj [("fields", Json.obj [("summary", Json.str "s")])]) rfl
    (fun h => nomatch h) rfl

/-! ### C1, C2: bearer-token gating -/

/-- C1: the testrail service does not gate its API routes.  On the
freshly seeded store, a `GET /api/v2/projects` request carrying no
Authorization header is answered 200 with the project list, because
`check_auth` — which would have rejected exactly this request with
401 — is never installed on any route. -/
theorem C1_testrail_api_routes_unauthenticated :
    TestRail.handle_get_projects { path := "/api/v2/projects", authorization := none }
      (TestRail.seed_initial_data TestRail.emptyStore none 0)
      = .ok 200 [TestRail.seedProject]
    ∧ TestRail.check_auth { path := "/api/v2/projects", authorization := none }
      = .error 401 :=
⟨rfl, rfl⟩

/-- C2 (counterexample): the header `"Bearer "` — the Bearer scheme with
an empty token — passes both the jira and the slack auth checks, and
the jira GET endpoint serves the request normally instead of answering
401. -/
theorem C2_counterexample :
    Jira.require_bearer (some "Bearer ") = true
    ∧ Slack.require_auth true (some "Bearer ") = true
    ∧ Jira.get_issue jiraStore1 "QA-1" (some "Bearer ")
        = .ok 200 (Jira.issueOutOfRow jiraRow1) :=
⟨rfl, rfl, rfl⟩

/-- C2 (amended): the jira and slack auth checks validate only the
Bearer scheme prefix of the Authorization header — any header starting
with `"Bearer "` (case-insensitively for jira) passes, the empty token
included, and a missing header or one without the prefix is rejected
with 401. -/
theorem C2_bearer_prefix_only (h : String) (st : Jira.Store) (key : String)
    (sst : Slack.Store) (ch : String) (limit : Int) :
    Jira.require_bearer none = false
    ∧ Slack.require_auth true none = false
    ∧ (strStartsWith (strToLower h) "bearer " = true →
        Jira.get_issue st key (some h) ≠ .err 401)
    ∧ (strStartsWith (strToLower h) "bearer " = false →
        Jira.get_issue st key (some h) = .err 401)
    ∧ (strStartsWith h "Bearer " = true →
        Slack.conversations_history true (some h) ch limit none none sst ≠ .err 401)
    ∧ (strStartsWith h "Bearer " = false →
        Slack.conversations_history true (some h) ch limit none none sst = .err 401) := by
refine ⟨rfl, rfl, ?_, ?_, ?_, ?_⟩
· intro hs
  simp only [Jira.get_issue, Jira.require_bearer, hs, Bool.not_true, Bool.false_eq_true,
    if_false]
  rcases Jira.findByKey st key with _ | row <;> simp
· intro hs
  simp [Jira.get_issue, Jira.require_bearer, hs]
· intro hs
  have hne : (h != "") = true := by
    by_cases he : h = ""
    · subst he
      exact absurd hs (by decide)
    · simp [he]
  simp only [Slack.conversations_history, Slack.require_auth, hs, hne, Bool.not_false,
    Bool.and_self, Bool.not_true, Bool.false_eq_true, if_false]
  rcases (Slack.get_channel_by_name sst ch).orElse
      (fun _ => Slack.get_channel_by_id sst ch) with _ | c <;> simp
· intro hs
  simp [Slack.conversations_history, Slack.require_auth, hs]

/-- C2 (witness): the amended characterization evaluated on the sample
stores — the empty Bearer token and a mixed-case Bearer header pass,
a Token-scheme header is rejected. -/
theorem C2_witness :
    strStartsWith (strToLower "Bearer ") "bearer " = true
    ∧ Jira.get_issue jiraStore1 "QA-1" (some "Bearer ") ≠ .err 401
    ∧ strStartsWith "Bearer x" "Bearer " = true
    ∧ Slack.conversations_history true (some "Bearer x") "general" 50 none none slackStore1
        ≠ .err 401
    ∧ strStartsWith (strToLower "Token x") "bearer " = false
    ∧ Jira.get_issue jiraStore1 "QA-1" (some "Token x") = .err 401 := by
refine ⟨by decide, ?_, by decide, ?_, by decide, ?_⟩
· exact (C2_bearer_prefix_only "Bearer " jiraStore1 "QA-1" slackStore1 "general"
    50).2.2.1 (by decide)
· exact (C2_bearer_prefix_only "Bearer x" jiraStore1 "QA-1" slackStore1 "general"
    50).2.2.2.2.1 (by decide)
· exact (C2_bearer_prefix_only "Token x" jiraStore1 "QA-1" slackStore1 "general"
    50).2.2.2.1 (by decide)

/-! ### C4: referential integrity -/

theorem upload_step_refOk (comment filename : String) (ts : Nat → String)
    (acc : Slack.Store × Nat) (n : String) (h : Slack.refOk acc.1) :
    Slack.refOk (Slack.upload_step comment filename ts acc n).1 := by
unfold Slack.upload_step
rcases hc : Slack.get_channel_by_name acc.1 n with _ | ch
· exact h
· intro m hm
  simp only [Slack.create_message] at hm
  rcases List.mem_append.mp hm with h1 | h2
  · exact h m h1
  · rcases List.mem_singleton.mp h2 with rfl
    exact ⟨ch, List.mem_of_find?_eq_some hc, rfl⟩

theorem upload_fold_refOk (comment filename : String) (ts : Nat → String)
    (names : List String) : ∀ acc : Slack.Store × Nat, Slack.refOk acc.1 →
    Slack.refOk (names.foldl (Slack.upload_step comment filename ts) acc).1 := by
induction names with
| nil => exact fun acc h => h
| cons n tl ih =>
  exact fun acc h => ih _ (upload_step_refOk comment filename ts acc n h)

/-- C4: every store-modifying operation of the slack and testrail
services keeps the referential-integrity invariant (messages reference
existing channels, results reference existing cases); in particular
`chat.postMessage` on an unknown channel and `add result` on an unknown
case answer 404 and store nothing. -/
theorem C4_referential_integrity (sst : Slack.Store) (auth : Option String)
    (req : Slack.PostMessageIn) (ts : String) (channels : String)
    (ic : Option String) (fname : String) (tsf : Nat → String)
    (tst : TestRail.Store) (case_id : Nat) (res : TestRail.TestResultCreateIn)
    (tnow : Nat) (stid : Int) (comm ela : Option String)
    (hs : Slack.refOk sst) (ht : TestRail.refOk tst) :
    Slack.refOk (Slack.post_message true auth req sst ts).2
    ∧ (Slack.require_auth true auth = true →
        Slack.get_channel_by_name sst req.channel = none →
        Slack.get_channel_by_id sst req.channel = none →
        Slack.post_message true auth req sst ts = (.err 404, sst))
    ∧ Slack.refOk (Slack.upload_file_comments sst channels ic fname tsf)
    ∧ TestRail.refOk (TestRail.create_result tst case_id res tnow).2
    ∧ (tst.cases.find? (fun c => c.id == case_id) = none →
        TestRail.create_result tst case_id res tnow = (.err 404, tst))
    ∧ TestRail.refOk (TestRail.execute_case tst case_id stid comm ela tnow).2
    ∧ (∀ (section_id : Nat) (c : TestRail.TestCaseCreateIn) (cnow : Nat),
        TestRail.refOk (TestRail.create_case tst section_id c cnow).2)
    ∧ (∀ (cid : Nat) (c : TestRail.TestCaseCreateIn) (cnow : Nat),
        TestRail.refOk (TestRail.update_case tst cid c cnow).2) := by
refine ⟨?_, ?_, ?_, ?_, ?_, ?_, ?_, ?_⟩
· unfold Slack.post_message
  cases hA : Slack.require_auth true auth
  · simpa using hs
  · simp only [Bool.not_true, Bool.false_eq_true, if_false]
    rcases hN : Slack.get_channel_by_name sst req.channel with _ | c
    · rcases hI : Slack.get_channel_by_id sst req.channel with _ | c
      · simp only [hN, hI, Option.orElse]
        exact hs
      · simp only [hN, hI, Option.orElse]
        intro m hm
        simp only [Slack.create_message] at hm
        rcases List.mem_append.mp hm with h1 | h2
        · exact hs m h1
        · rcases List.mem_singleton.mp h2 with rfl
          exact ⟨c, List.mem_of_find?_eq_some hI, rfl⟩
    · simp only [hN, Option.orElse]
      intro m hm
      simp only [Slack.create_message] at hm
      rcases List.mem_append.mp hm with h1 | h2
      · exact hs m h1
      · rcases List.mem_singleton.mp h2 with rfl
        exact ⟨c, List.mem_of_find?_eq_some hN, rfl⟩
· intro hA hN hI
  simp [Slack.post_message, hA, hN, hI, Option.orElse]
· unfold Slack.upload_file_comments
  rcases ic with _ | comment
  · exact hs
  · by_cases hc : comment = ""
    · simp [hc]
      exact hs
    · simp only [hc, if_neg, beq_iff_eq, if_false]
      exact upload_fold_refOk comment fname tsf _ (sst, 0) hs
· unfold TestRail.create_result
  rcases hfc : tst.cases.find? (fun c => c.id == case_id) with _ | c
  · simp only [hfc]
    exact ht
  · simp only [hfc]
    by_cases hv : (TestRail.STATUS_NAMES.any (fun p => p.1 == res.status_id)) = true
    · simp only [hv, Bool.not_true, Bool.false_eq_true, if_false]
      intro r hr
      rcases List.mem_append.mp hr with h1 | h2
      · exact ht r h1
      · rcases List.mem_singleton.mp h2 with rfl
        refine ⟨c, List.mem_of_find?_eq_some hfc, ?_⟩
        have hp := List.find?_some hfc
        show c.id = case_id
        exact eq_of_beq hp
    · simp only [Bool.not_eq_true] at hv
      simp only [hv, Bool.not_false, if_true]
      exact ht
· intro hfc
  simp [TestRail.create_result, hfc]
· unfold TestRail.execute_case
  rcases hfc : tst.cases.find? (fun c => c.id == case_id) with _ | c
  · simp only [hfc]
    exact ht
  · simp only [hfc]
    intro r hr
    rcases List.mem_append.mp hr with h1 | h2
    · exact ht r h1
    · rcases List.mem_singleton.mp h2 with rfl
      refine ⟨c, List.mem_of_find?_eq_some hfc, ?_⟩
      have hp := List.find?_some hfc
      show c.id = case_id
      exact eq_of_beq hp
· intro section_id c cnow
  unfold TestRail.create_case
  rcases hfs : tst.sections.find? (fun s => s.id == section_id) with _ | s
  · simp only [hfs]
    exact ht
  · simp only [hfs]
    intro r hr
    rcases ht r hr with ⟨cc, hcc, hid⟩
    exact ⟨cc, List.mem_append_left _ hcc, hid⟩
· intro cid c cnow
  unfold TestRail.update_case
  rcases hfc : tst.cases.find? (fun x => x.id == cid) with _ | x
  · simp only [hfc]
    exact ht
  · simp only [hfc]
    intro r hr
    rcases ht r hr with ⟨cc, hcc, hid⟩
    by_cases hcase : (cc.id == cid) = true
    · have hmem : (if (cc.id == cid) = true then TestRail.applyCaseUpdate cc c cnow else cc)
          ∈ List.map (fun y => if (y.id == cid) = true then
              TestRail.applyCaseUpdate y c cnow else y) tst.cases :=
        List.mem_map_of_mem _ hcc
      rw [if_pos hcase] at hmem
      exact ⟨TestRail.applyCaseUpdate cc c cnow, hmem, hid⟩
    · have hmem : (if (cc.id == cid) = true then TestRail.applyCaseUpdate cc c cnow else cc)
          ∈ List.map (fun y => if (y.id == cid) = true then
              TestRail.applyCaseUpdate y c cnow else y) tst.cases :=
        List.mem_map_of_mem _ hcc
      rw [if_neg hcase] at hmem
      exact ⟨cc, hmem, hid⟩

/-- C4 (witness): the invariant theorem evaluated on the sample stores —
a post into `qa-reports` keeps the invariant, a post into an unknown
channel is a 404 that stores nothing, a result for case 1 keeps the
invariant, a result for the unknown case 99 is a 404 that stores
nothing. -/
theorem C4_witness :
    Slack.refOk (Slack.post_message true (some "Bearer t")
      { channel := "qa-reports", text := "All tests passed" } slackStore1 "100.000001").2
    ∧ Slack.post_message true (some "Bearer t")
        { channel := "no-such-channel", text := "hello" } slackStore1 "100.000001"
        = (.err 404, slackStore1)
    ∧ TestRail.refOk (TestRail.create_result trStore1 1 { status_id := 1 } 9).2
    ∧ TestRail.create_result trStore1 99 { status_id := 1 } 9 = (.err 404, trStore1) := by
have hs : Slack.refOk slackStore1 := fun m hm => absurd hm (List.not_mem_nil m)
have ht : TestRail.refOk trStore1 := fun r hr => absurd hr (List.not_mem_nil r)
refine ⟨?_, ?_, ?_, ?_⟩
· exact (C4_referential_integrity slackStore1 (some "Bearer t")
    { channel := "qa-reports", text := "All tests passed" } "100.000001" "" none ""
    (fun _ => "") trStore1 1 { status_id := 1 } 9 1 none none hs ht).1
· exact (C4_referential_integrity slackStore1 (some "Bearer t")
    { channel := "no-such-channel", text := "hello" } "100.000001" "" none ""
    (fun _ => "") trStore1 1 { status_id := 1 } 9 1 none none hs ht).2.1 rfl rfl rfl
· exact (C4_referential_integrity slackStore1 (some "Bearer t")
    { channel := "qa-reports", text := "All tests passed" } "100.000001" "" none ""
    (fun _ => "") trStore1 1 { status_id := 1 } 9 1 none none hs ht).2.2.2.1
· exact (C4_referential_integrity slackStore1 (some "Bearer t")
    { channel := "qa-reports", text := "All tests passed" } "100.000001" "" none ""
    (fun _ => "") trStore1 99 { status_id := 1 } 9 1 none none hs ht).2.2.2.2.1 rfl

/-! ### C6, C7: create/read round trip and delete -/

/-- C6 (counterexample): creating a jira issue with the empty summary
`""` succeeds, but the immediately following GET returns the summary
`"No summary"` — not the summary supplied at creation. -/
theorem C6_counterexample :
    (Jira.create_issue { rows := [], nextId := 1 }
      { summary := "", issuetype := { name := "Bug" } } (some "Bearer t") "T0").1.status
      = 201
    ∧ Jira.get_issue (Jira.create_issue { rows := [], nextId := 1 }
        { summary := "", issuetype := { name := "Bug" } } (some "Bearer t") "T0").2
        "QA-1" (some "Bearer t")
      = .ok 200
        { id := 1, key := some "QA-1", summary := .str "No summary",
          description := .str "", issuetypeName := .str "Bug",
          priorityName := .str "Medium", assignee := none,
          created := "T0", updated := "T0" }
    ∧ Json.str "No summary" ≠ Json.str "" := by
refine ⟨rfl, rfl, ?_⟩
intro h
exact absurd (Json.str.inj h) (by decide)

/-- C6 (amended): the create/read round trip holds with the creation
defaults substituted — jira GET returns the supplied issuetype name and
description (with `""` for a null description), and the supplied
summary whenever it is non-empty, an empty summary being stored as
`"No summary"`; a testrail case is returned by GET with exactly the
fields supplied at creation (absent members taking the documented
defaults). -/
theorem C6_create_read_roundtrip (st : Jira.Store) (f : Jira.IssueFieldsIn)
    (auth auth2 : Option String) (now : String)
    (hauth : Jira.require_bearer auth = true)
    (hauth2 : Jira.require_bearer auth2 = true)
    (hfresh : ∀ r ∈ st.rows, r.key ≠ some (s!"QA-{st.nextId}"))
    (tst : TestRail.Store) (section_id : Nat) (c : TestRail.TestCaseCreateIn)
    (tnow : Nat) (sec : TestRail.SectionRow)
    (hsec : tst.sections.find? (fun s => s.id == section_id) = some sec)
    (hcfresh : ∀ x ∈ tst.cases, x.id ≠ tst.nextCaseId) :
    (∃ out, (Jira.create_issue st f auth now).1 = .ok 201 out
      ∧ out.key = some (s!"QA-{st.nextId}"))
    ∧ (∃ body, Jira.get_issue (Jira.create_issue st f auth now).2
          (s!"QA-{st.nextId}") auth2 = .ok 200 body
      ∧ body.summary = .str (if f.summary == "" then "No summary" else f.summary)
      ∧ body.description = .str (f.description.getD "")
      ∧ body.issuetypeName = .str f.issuetype.name
      ∧ (f.summary ≠ "" → body.summary = .str f.summary))
    ∧ (∃ row, (TestRail.create_case tst section_id c tnow).1 = .ok 200 row
      ∧ TestRail.get_case (TestRail.create_case tst section_id c tnow).2 row.id
          = .ok 200 row
      ∧ row.title = c.title
      ∧ row.template_id = c.template_id.getD 1
      ∧ row.type_id = c.type_id.getD 1
      ∧ row.priority_id = c.priority_id.getD 2
      ∧ row.steps = c.steps.getD none
      ∧ row.expected_result = c.expected_result.getD none
      ∧ row.preconditions = c.preconditions.getD none) := by
have hc : Jira.create_issue st f auth now
    = (.ok 201
        { id := st.nextId, key := some (s!"QA-{st.nextId}"),
          summary := .str (if f.summary == "" then "No summary" else f.summary),
          description := .str (f.description.getD ""),
          issuetypeName := .str f.issuetype.name,
          priorityName := .str "Medium", assignee := none,
          created := now, updated := now },
       { rows := st.rows ++
          [{ id := st.nextId, key := some (s!"QA-{st.nextId}"),
             summary := .str (if f.summary == "" then "No summary" else f.summary),
             description := .str (f.description.getD ""),
             issue_type := .str f.issuetype.name, created_on := now }],
         nextId := st.nextId + 1 }) := by
  simp only [Jira.create_issue, hauth, Bool.not_true, Bool.false_eq_true, if_false]
have hfind : Jira.findByKey (Jira.create_issue st f auth now).2 (s!"QA-{st.nextId}")
    = some
      { id := st.nextId, key := some (s!"QA-{st.nextId}"),
        summary := .str (if f.summary == "" then "No summary" else f.summary),
        description := .str (f.description.getD ""),
        issue_type := .str f.issuetype.name, created_on := now } := by
  rw [hc]
  unfold Jira.findByKey
  rw [List.find?_append]
  have hnone : st.rows.find? (fun r => r.key == some (s!"QA-{st.nextId}")) = none := by
    rw [List.find?_eq_none]
    intro r hr
    simp only [beq_iff_eq]
    exact hfresh r hr
  rw [hnone]
  simp
refine ⟨⟨{ id := st.nextId, key := some (s!"QA-{st.nextId}"),
           summary := .str (if f.summary == "" then "No summary" else f.summary),
           description := .str (f.description.getD ""),
           issuetypeName := .str f.issuetype.name,
           priorityName := .str "Medium", assignee := none,
           created := now, updated := now }, by rw [hc], rfl⟩,
  ⟨{ id := st.nextId, key := some (s!"QA-{st.nextId}"),
     summary := .str (if f.summary == "" then "No summary" else f.summary),
     description := .str (f.description.getD ""),
     issuetypeName := .str f.issuetype.name,
     priorityName := .str "Medium", assignee := none,
     created := now, updated := now }, ?_, rfl, rfl, rfl, ?_⟩, ?_⟩
· simp only [Jira.get_issue, hauth2, hfind, Bool.not_true, Bool.false_eq_true, if_false]
  rfl
· intro hne
  show Json.str (if (f.summary == "") = true then "No summary" else f.summary)
      = Json.str f.summary
  rw [if_neg (by simp [hne])]
· refine ⟨{ id := tst.nextCaseId, section_id := section_id, title := c.title,
            template_id := c.template_id.getD 1, type_id := c.type_id.getD 1,
            priority_id := c.priority_id.getD 2, steps := c.steps.getD none,
            expected_result := c.expected_result.getD none,
            preconditions := c.preconditions.getD none,
            created_on := tnow, updated_on := tnow },
    ?_, ?_, rfl, rfl, rfl, rfl, rfl, rfl, rfl⟩
  · simp only [TestRail.create_case, hsec]
  · simp only [TestRail.create_case, hsec]
    unfold TestRail.get_case
    have hnone : tst.cases.find? (fun x => x.id == tst.nextCaseId) = none := by
      rw [List.find?_eq_none]
      intro x hx
      simp only [beq_iff_eq]
      exact hcfresh x hx
    rw [List.find?_append, hnone]
    simp

/-- C6 (witness): the round trip evaluated on an empty jira store and on
the sample testrail store. -/
theorem C6_witness :
    (∃ out, (Jira.create_issue { rows := [], nextId := 1 }
        { summary := "Login broken", description := some "see report",
          issuetype := { name := "Bug" } } (some "Bearer t") "T0").1 = .ok 201 out
      ∧ out.key = some "QA-1")
    ∧ (∃ body, Jira.get_issue (Jira.create_issue { rows := [], nextId := 1 }
          { summary := "Login broken", description := some "see report",
            issuetype := { name := "Bug" } } (some "Bearer t") "T0").2
          "QA-1" (some "Bearer t") = .ok 200 body
      ∧ body.summary = .str "Login broken"
      ∧ body.description = .str "see report"
      ∧ body.issuetypeName = .str "Bug")
    ∧ (∃ row, (TestRail.create_case trStore1 1 { title := "New case" } 9).1 = .ok 200 row
      ∧ TestRail.get_case (TestRail.create_case trStore1 1 { title := "New case" } 9).2
          row.id = .ok 200 row
      ∧ row.title = "New case") := by
have h := C6_create_read_roundtrip { rows := [], nextId := 1 }
  { summary := "Login broken", description := some "see report",
    issuetype := { name := "Bug" } } (some "Bearer t") (some "Bearer t") "T0" rfl rfl
  (fun r hr => absurd hr (List.not_mem_nil r)) trStore1 1 { title := "New case" } 9
  { id := 1, project_id := 1, name := "Authentication",
    description := some "Login and authentication tests" } rfl
  (fun x hx => by
    rcases List.mem_singleton.mp hx with rfl
    decide)
refine ⟨h.1, ?_, ?_⟩
· rcases h.2.1 with ⟨body, hb, hs, hd, hn, _⟩
  exact ⟨body, hb, hs, hd, hn⟩
· rcases h.2.2 with ⟨row, hr1, hr2, ht, _⟩
  exact ⟨row, hr1, hr2, ht⟩

/-- C7: under valid auth, jira DELETE of a stored key answers 204 and
removes exactly the rows with that key — a following GET of the key is
404, rows with other keys survive and nothing new appears — while
DELETE of an unknown key answers 404 and leaves the store unchanged. -/
theorem C7_delete_then_get (st : Jira.Store) (key : String) (auth : Option String)
    (hauth : Jira.require_bearer auth = true) :
    (∀ row, Jira.findByKey st key = some row →
      Jira.delete_issue st key auth
        = (.ok 204 (), { st with rows := st.rows.filter (fun r => r.key != some key) })
      ∧ Jira.get_issue (Jira.delete_issue st key auth).2 key auth = .err 404
      ∧ (∀ r ∈ st.rows, r.key ≠ some key → r ∈ (Jira.delete_issue st key auth).2.rows)
      ∧ (∀ r ∈ (Jira.delete_issue st key auth).2.rows, r ∈ st.rows))
    ∧ (Jira.findByKey st key = none →
        Jira.delete_issue st key auth = (.err 404, st)) := by
constructor
· intro row hfind
  have hdel : Jira.delete_issue st key auth
      = (.ok 204 (), { st with rows := st.rows.filter (fun r => r.key != some key) }) := by
    simp [Jira.delete_issue, hauth, hfind]
  refine ⟨hdel, ?_, ?_, ?_⟩
  · rw [hdel]
    have hnone : Jira.findByKey
        { st with rows := st.rows.filter (fun r => r.key != some key) } key = none := by
      unfold Jira.findByKey
      rw [List.find?_eq_none]
      intro r hr
      have hne := (List.mem_filter.mp hr).2
      simp only [bne_iff_ne, ne_eq] at hne
      simp only [beq_iff_eq]
      exact hne
    simp [Jira.get_issue, hauth, hnone]
  · intro r hr hrk
    rw [hdel]
    exact List.mem_filter.mpr ⟨hr, by simp [hrk]⟩
  · intro r hr
    rw [hdel] at hr
    exact (List.mem_filter.mp hr).1
· intro hfind
  simp [Jira.delete_issue, hauth, hfind]

/-- C7 (witness): deleting QA-1 from the one-issue store gives 204 and a
subsequent GET gives 404; deleting the absent QA-9 gives 404 and keeps
the store. -/
theorem C7_witness :
    Jira.delete_issue jiraStore1 "QA-1" (some "Bearer t")
      = (.ok 204 (), { rows := [], nextId := 2 })
    ∧ Jira.get_issue (Jira.delete_issue jiraStore1 "QA-1" (some "Bearer t")).2 "QA-1"
        (some "Bearer t") = .err 404
    ∧ Jira.delete_issue jiraStore1 "QA-9" (some "Bearer t") = (.err 404, jiraStore1) := by
have h := C7_delete_then_get jiraStore1 "QA-1" (some "Bearer t") rfl
refine ⟨?_, (h.1 jiraRow1 rfl).2.1, ?_⟩
· rw [(h.1 jiraRow1 rfl).1]
  rfl
· exact (C7_delete_then_get jiraStore1 "QA-9" (some "Bearer t") rfl).2 rfl

/-! ### C8, C10: pagination -/

theorem sqlLimit_length_le (limit : Int) (h : 0 ≤ limit) (xs : List α) :
    (((sqlLimit limit xs).length : Int)) ≤ limit := by
unfold sqlLimit
rw [if_neg (by omega)]
calc ((xs.take limit.toNat).length : Int) ≤ (limit.toNat : Int) := by
      exact_mod_cast List.length_take_le _ _
  _ = limit := Int.toNat_of_nonneg h

theorem get_messages_length_le (sst : Slack.Store) (chid : String) (limit : Int)
    (oldest latest : Option String) (h : 0 ≤ limit) :
    (((Slack.get_messages sst chid limit oldest latest).length : Int)) ≤ limit := by
unfold Slack.get_messages
exact sqlLimit_length_le limit h _

/-- C8 (counterexample): the testrail cases endpoint accepts `limit = -1`
(only `limit ≤ 250` is validated) and then returns every matching case —
here one case, and `1 ≤ -1` is false, so the result set is not bounded
by `limit`. -/
theorem C8_counterexample :
    TestRail.get_cases trStore1 1 none (-1) 0 = .ok 200 [trCase1]
    ∧ ¬((1 : Int) ≤ -1)
    ∧ (-1 : Int) ≤ 250 := by
exact ⟨rfl, by decide, by decide⟩

/-- C8 (amended): jira search accepts `maxResults` only in 1..100 (422
otherwise) and returns at most `maxResults` issues; testrail accepts
`limit` only up to 250 (422 above) and slack accepts any integer
`limit`, and both return at most `limit` rows whenever `limit` is
nonnegative — a negative `limit`, which validation does not reject,
imposes no bound (SQLite `LIMIT` semantics). -/
theorem C8_pagination_bounds (jst : Jira.Store) (startAt maxResults badMax : Int)
    (jauth : Option String) (tst : TestRail.Store) (pid : Nat) (sid : Option Int)
    (tlimit toffset tbig : Int) (sst : Slack.Store) (sauth : Option String)
    (ch chid : String) (slimit : Int) (co : Slack.ChannelRow)
    (h1 : 0 ≤ startAt) (h2 : 1 ≤ maxResults) (h3 : maxResults ≤ 100)
    (hja : Jira.require_bearer jauth = true)
    (h4 : 0 ≤ tlimit) (h5 : tlimit ≤ 250) (h6 : 0 ≤ toffset)
    (h7 : 0 ≤ slimit)
    (hsa : Slack.require_auth true sauth = true)
    (hch : Slack.get_channel_by_name sst ch = some co) :
    (∃ body, Jira.search_issues jst startAt maxResults jauth = .ok 200 body
      ∧ (body.issues.length : Int) ≤ maxResults)
    ∧ (badMax < 1 ∨ 100 < badMax →
        Jira.search_issues jst startAt badMax jauth = .err 422)
    ∧ (∃ cases, TestRail.get_cases tst pid sid tlimit toffset = .ok 200 cases
      ∧ (cases.length : Int) ≤ tlimit)
    ∧ (250 < tbig → TestRail.get_cases tst pid sid tbig toffset = .err 422)
    ∧ ((Slack.get_messages sst chid slimit none none).length : Int) ≤ slimit
    ∧ (∃ body, Slack.conversations_history true sauth ch slimit none none sst
          = .ok 200 body
      ∧ (body.messages.length : Int) ≤ slimit) := by
have hcond : (decide (startAt < 0) || decide (maxResults < 1)
    || decide (maxResults > 100)) = false := by
  simp only [Bool.or_eq_false_iff, decide_eq_false_iff_not]
  omega
refine ⟨?_, ?_, ?_, ?_, ?_, ?_⟩
· simp only [Jira.search_issues, hcond, hja, Bool.not_true, Bool.false_eq_true,
    if_false, Bool.false_eq_true]
  refine ⟨_, rfl, ?_⟩
  rw [List.length_map]
  exact sqlLimit_length_le maxResults (by omega) _
· intro hbad
  have hcondT : (decide (startAt < 0) || decide (badMax < 1)
      || decide (badMax > 100)) = true := by
    rcases hbad with h | h <;> simp [h]
  simp [Jira.search_issues, hcondT]
· unfold TestRail.get_cases
  rw [if_neg (by omega), if_neg (by omega)]
  refine ⟨_, rfl, ?_⟩
  exact sqlLimit_length_le tlimit (by omega) _
· intro hbig
  unfold TestRail.get_cases
  rw [if_pos (by omega)]
· exact get_messages_length_le sst chid slimit none none h7
· simp only [Slack.conversations_history, hsa, hch, Option.orElse, Bool.not_true,
    Bool.false_eq_true, if_false]
  refine ⟨_, rfl, ?_⟩
  rw [List.length_reverse]
  exact get_messages_length_le sst co.id slimit none none h7

/-- C8 (witness): the bounds evaluated on the sample stores with
`maxResults = 1`, `limit = 5`, a rejected `maxResults = 0` and a
rejected testrail `limit = 251`. -/
theorem C8_witness :
    (∃ body, Jira.search_issues jiraStore1 0 1 (some "Bearer t") = .ok 200 body
      ∧ (body.issues.length : Int) ≤ 1)
    ∧ Jira.search_issues jiraStore1 0 0 (some "Bearer t") = .err 422
    ∧ (∃ cases, TestRail.get_cases trStore1 1 none 5 0 = .ok 200 cases
      ∧ (cases.length : Int) ≤ 5)
    ∧ TestRail.get_cases trStore1 1 none 251 0 = .err 422
    ∧ ((Slack.get_messages slackStore1 "C1234567890" 5 none none).length : Int) ≤ 5
    ∧ (∃ body, Slack.conversations_history true (some "Bearer t") "qa-reports" 5
          none none slackStore1 = .ok 200 body
      ∧ (body.messages.length : Int) ≤ 5) := by
have h := C8_pagination_bounds jiraStore1 0 1 0 (some "Bearer t") trStore1 1 none
  5 0 251 slackStore1 (some "Bearer t") "qa-reports" "C1234567890" 5
  { id := "C1234567890", name := "qa-reports",
    topic := "Quality Assurance Reports and Updates",
    purpose := "Channel for sharing QA test results and automation reports" }
  (by decide) (by decide) (by decide) rfl (by decide) (by decide) (by decide)
  (by decide) rfl rfl
exact ⟨h.1, h.2.1 (Or.inl (by decide)), h.2.2.1, h.2.2.2.1 (by decide),
  h.2.2.2.2.1, h.2.2.2.2.2⟩

theorem C10_search_total_is_page_length (st : Jira.Store) (startAt maxResults : Int)
    (auth : Option String) (h1 : 0 ≤ startAt) (h2 : 1 ≤ maxResults)
    (h3 : maxResults ≤ 100) (hauth : Jira.require_bearer auth = true) :
    ∃ body, Jira.search_issues st startAt maxResults auth = .ok 200 body
      ∧ body.total = body.issues.length
      ∧ (body.total : Int) ≤ maxResults
      ∧ (startAt = 0 → maxResults.toNat < st.rows.length →
          body.total = maxResults.toNat) := by
have hcond : (decide (startAt < 0) || decide (maxResults < 1)
    || decide (maxResults > 100)) = false := by
  simp only [Bool.or_eq_false_iff, decide_eq_false_iff_not]
  omega
simp only [Jira.search_issues, hcond, hauth, Bool.not_true, Bool.false_eq_true, if_false]
refine ⟨_, rfl, ?_, ?_, ?_⟩
· rw [List.length_map]
· exact sqlLimit_length_le maxResults (by omega) _
· intro h0 hlt
  subst h0
  unfold sqlLimit
  rw [if_neg (by omega)]
  simp only [Int.toNat_zero, List.drop_zero, List.length_take, Jira.orderByIdDesc,
    List.length_mergeSort]
  omega

/-- C10 (witness): with two stored issues and `maxResults = 1`, `total`
equals the page length 1, not the store count 2. -/
theorem C10_witness :
    ∃ body, Jira.search_issues { rows := [jiraRow1, jiraRow1], nextId := 3 } 0 1
        (some "Bearer t") = .ok 200 body
      ∧ body.total = body.issues.length
      ∧ (body.total : Int) ≤ 1
      ∧ ((0 : Int) = 0 → (1 : Int).toNat
          < ({ rows := [jiraRow1, jiraRow1], nextId := 3 } : Jira.Store).rows.length →
          body.total = (1 : Int).toNat) :=
C10_search_total_is_page_length { rows := [jiraRow1, jiraRow1], nextId := 3 } 0 1
  (some "Bearer t") (by decide) (by decide) (by decide) rfl

/-! ### C9: seeding only into an empty store -/

theorem foldl_seedStep_length (now : String) (items : List Json) :
    ∀ acc : Jira.Store,
      (items.foldl (Jira.seedStep now) acc).rows.length
        = acc.rows.length + items.length := by
induction items with
| nil => intro acc; simp
| cons it tl ih =>
  intro acc
  rw [List.foldl_cons, ih]
  simp [Jira.seedStep]
  omega

theorem foldl_insertSeed_projects (now : Nat) (items : List TestRail.SeedCaseItem) :
    ∀ acc : TestRail.Store,
      (items.foldl (fun a i => TestRail.insertSeedCase a i now) acc).projects
        = acc.projects := by
induction items with
| nil => intro acc; rfl
| cons it tl ih =>
  intro acc
  rw [List.foldl_cons, ih]
  rfl

theorem load_seed_projects (st : TestRail.Store)
    (f : Option (List TestRail.SeedCaseItem)) (now : Nat) :
    (TestRail.load_seed_data_from_json st f now).projects = st.projects := by
cases f with
| none =>
  show (TestRail.create_sample_test_cases st now).projects = st.projects
  unfold TestRail.create_sample_test_cases
  simp only [TestRail.insertSampleResult, TestRail.insertSampleEntry]
  rw [foldl_insertSeed_projects]
| some items => exact foldl_insertSeed_projects now items st

/-- C9: each service seeds only an empty store — jira when the issues
table has zero rows and the seed file exists, slack when the channels
table is empty, testrail when no project row exists — and a non-empty
store passes through startup completely unchanged. -/
theorem C9_seed_only_into_empty_store (jst : Jira.Store) (items : List Json)
    (jnow : String) (sst : Slack.Store) (bts : Nat) (tst : TestRail.Store)
    (tseed : Option (List TestRail.SeedCaseItem)) (tnow : Nat) :
    (jst.rows ≠ [] → Jira.startup jst (some items) jnow = jst)
    ∧ Jira.startup jst none jnow = jst
    ∧ (jst.rows = [] →
        (Jira.startup jst (some items) jnow).rows.length = items.length)
    ∧ (sst.channels ≠ [] → Slack.init_db sst bts = sst)
    ∧ (sst.channels = [] → Slack.init_db sst bts
        = { channels := sst.channels ++ Slack.seedChannels,
            messages := sst.messages ++ Slack.seedMessages bts })
    ∧ (tst.projects ≠ [] → TestRail.seed_initial_data tst tseed tnow = tst)
    ∧ (tst.projects = [] →
        (TestRail.seed_initial_data tst tseed tnow).projects
          = tst.projects ++ [TestRail.seedProject]) := by
refine ⟨?_, ?_, ?_, ?_, ?_, ?_, ?_⟩
· intro h
  simp [Jira.startup, List.length_eq_zero, h]
· unfold Jira.startup
  split <;> rfl
· intro h
  simp only [Jira.startup, h, List.length_nil, Nat.zero_eq, beq_self_eq_true, if_true]
  rw [foldl_seedStep_length, h]
  simp
· intro h
  simp [Slack.init_db, List.length_eq_zero, h]
· intro h
  simp [Slack.init_db, h]
· intro h
  have hne : tst.projects.isEmpty = false := by
    simp [List.isEmpty_iff, h]
  simp [TestRail.seed_initial_data, hne]
· intro h
  have hemp : tst.projects.isEmpty = true := by
    simp [List.isEmpty_iff, h]
  simp only [TestRail.seed_initial_data, hemp, Bool.not_true, Bool.false_eq_true, if_false]
  rw [load_seed_projects]

/-- C9 (witness): the seeding guard evaluated on the non-empty sample
stores (startup changes nothing) and on empty stores (the fixtures are
inserted). -/
theorem C9_witness :
    Jira.startup jiraStore1 (some [Json.obj []]) "T" = jiraStore1
    ∧ (Jira.startup { rows := [], nextId := 1 } (some [Json.obj []]) "T").rows.length = 1
    ∧ Slack.init_db slackStore1 100 = slackStore1
    ∧ TestRail.seed_initial_data trStore1 none 7 = trStore1
    ∧ (TestRail.seed_initial_data TestRail.emptyStore none 7).projects
        = [TestRail.seedProject] := by
refine ⟨?_, ?_, ?_, ?_, ?_⟩
· exact (C9_seed_only_into_empty_store jiraStore1 [Json.obj []] "T" slackStore1 100
    trStore1 none 7).1 (List.cons_ne_nil _ _)
· exact (C9_seed_only_into_empty_store { rows := [], nextId := 1 } [Json.obj []] "T"
    slackStore1 100 trStore1 none 7).2.2.1 rfl
· exact (C9_seed_only_into_empty_store jiraStore1 [Json.obj []] "T" slackStore1 100
    trStore1 none 7).2.2.2.1 (List.cons_ne_nil _ _)
· exact (C9_seed_only_into_empty_store jiraStore1 [Json.obj []] "T" slackStore1 100
    trStore1 none 7).2.2.2.2.2.1 (List.cons_ne_nil _ _)
· exact (C9_seed_only_into_empty_store jiraStore1 [Json.obj []] "T" slackStore1 100
    TestRail.emptyStore none 7).2.2.2.2.2.2 rfl

end MockServices
